import Mathlib

/-!
# Verification of the PrintPilot PDF API servers

Shallow embedding of the three Express servers of the repository
(`src/server.js`, `src/railway-api/server.js`, `src/unnamed/part_000`).

Each HTTP handler is embedded as a pure function from the request, a fresh
job id (the uuid), and an *environment* `Env` telling which external
commands succeed, to the response together with an instrumented state: the
list of executed `execSync` commands, the temp file system, the log of
`fs.writeFileSync` calls, the log of `fs.copyFileSync` calls and the set of
existing job directories.

The effectful body of every handler (everything between input validation
and reading back `output.pdf`) is embedded as a small program (`Prog`)
over these effects, run by the interpreter `interp`; `try { … } catch { … }`
becomes `Prog.tryCatch`, `execSync` becomes `Prog.run` of a `Cmd`, and
`fs.writeFileSync` / `fs.copyFileSync` become `Prog.write` / `Prog.copyFile`.
-/

namespace PrintPilot

/-- A file inside a per-job temp directory `/tmp/pdf-processing/<job>/`.
Every path the servers touch has this shape. -/
structure Path where
  job : String
  name : String
deriving DecidableEq, Repr

/-- The string form of a path, as interpolated into the shell commands. -/
def pathStr (p : Path) : String :=
  "/tmp/pdf-processing/" ++ p.job ++ "/" ++ p.name

/-- Double-quote a string, as the JS template literals do around paths. -/
def qd (s : String) : String := "\x22" ++ s ++ "\x22"

/-- A path, double-quoted, as it appears inside a command line. -/
def pq (p : Path) : String := qd (pathStr p)

/-- Contents of a file in the modelled file system.  `upload` is a request
buffer written with `writeFileSync`; `script` is a JS-built text (PostScript)
written with `writeFileSync`; `toolOut` is a file produced by an external
tool invocation, recording the binary, its argument string and the contents
of the input files the command line referenced when it ran. -/
inductive Content where
  | upload : List Nat → Content
  | script : String → Content
  | toolOut : String → String → List (Option Content) → Content

/-- Is this file content the output of an external tool? -/
def isToolOut : Content → Bool
  | .toolOut _ _ _ => true
  | _ => false

/-- One `execSync` invocation: the binary (first word of the command line),
the rest of the command line, and the files the command line names as
inputs and outputs. -/
structure Cmd where
  prog : String
  args : String
  ins : List Path
  outs : List Path
deriving DecidableEq, Repr

/-- Which external commands succeed (exit 0) in the current container. -/
abbrev Env := Cmd → Bool

/-- Instrumented server state for one request: executed commands, the temp
file system, the `writeFileSync` log, the `copyFileSync` log, and the
existing job directories. -/
structure St where
  cmds : List Cmd
  fs : List (Path × Content)
  writes : List (Path × Content)
  copies : List (Path × Path)
  dirs : List String

def St.init : St := ⟨[], [], [], [], []⟩

/-- `fs.mkdirSync(jobDir, { recursive: true })`. -/
def mkdirJob (id : String) (s : St) : St := { s with dirs := s.dirs ++ [id] }

/-- Read a file from the modelled file system (most recent write wins). -/
def fsGet : List (Path × Content) → Path → Option Content
  | [], _ => none
  | e :: rest, p => if p = e.1 then some e.2 else fsGet rest p

/-- Raw file-system store (used for tool outputs, not logged as a write). -/
def put (p : Path) (c : Content) (s : St) : St := { s with fs := (p, c) :: s.fs }

/-- `fs.writeFileSync(p, c)`: stores the bytes unchanged and logs the write. -/
def wr (p : Path) (c : Content) (s : St) : St :=
  { s with fs := (p, c) :: s.fs, writes := s.writes ++ [(p, c)] }

/-- Append an executed command to the trace. -/
def recCmd (c : Cmd) (s : St) : St := { s with cmds := s.cmds ++ [c] }

/-- Store the same content at every output path of a command. -/
def putOuts (outs : List Path) (c : Content) (s : St) : St :=
  match outs with
  | [] => s
  | p :: rest => putOuts rest c (put p c s)

/-- A successful `execSync`: record the command and create its outputs,
whose content is a function of the command and of the contents of its
input files at invocation time. -/
def runCmd (c : Cmd) (s : St) : St :=
  putOuts c.outs (Content.toolOut c.prog c.args (c.ins.map (fun p => fsGet s.fs p))) (recCmd c s)

/-- `fs.copyFileSync(src, dst)` succeeded: duplicate the content, log the copy. -/
def docopy (src dst : Path) (c : Content) (s : St) : St :=
  { s with fs := (dst, c) :: s.fs, copies := s.copies ++ [(src, dst)] }

/-- `cleanupJob(jobDir)`: remove the job directory and everything in it. -/
def cleanup (id : String) (s : St) : St :=
  { s with fs := s.fs.filter (fun e => e.1.job != id),
           dirs := s.dirs.filter (fun d => d != id) }

/-- The effectful body of a handler: writes, external commands, copies,
sequencing and `try`/`catch`. -/
inductive Prog where
  | skip : Prog
  | write : Path → Content → Prog
  | run : Cmd → Prog
  | copyFile : Path → Path → Prog
  | seq : Prog → Prog → Prog
  | tryCatch : Prog → Prog → Prog

/-- Run a program.  An error (a failed command, or copying a missing file)
carries the state at the point of failure and the error message; `tryCatch`
resumes its handler from that state, like a JS `catch` block over the same
mutable filesystem. -/
def interp (env : Env) : Prog → St → Except (St × String) St
  | .skip, s => .ok s
  | .write p c, s => .ok (wr p c s)
  | .run c, s =>
      if env c then .ok (runCmd c s)
      else .error (recCmd c s, "Command failed: " ++ c.prog ++ " " ++ c.args)
  | .copyFile src dst, s =>
      match fsGet s.fs src with
      | some c => .ok (docopy src dst c s)
      | none => .error (s, "ENOENT: no such file or directory, copyfile " ++ pathStr src)
  | .seq a b, s =>
      match interp env a s with
      | .ok s' => interp env b s'
      | .error e => .error e
  | .tryCatch a b, s =>
      match interp env a s with
      | .ok s' => .ok s'
      | .error (s', _) => interp env b s'

/-- State resulting from a run, whether it succeeded or failed. -/
def resSt : Except (St × String) St → St
  | .ok s => s
  | .error (s, _) => s

/-- HTTP response body: either a JSON object (here: its error/message text)
or a PDF whose bytes are a file content. -/
inductive Body where
  | json : String → Body
  | pdf : Content → Body

def Body.isJsonB : Body → Bool
  | .json _ => true
  | _ => false

structure Response where
  status : Nat
  body : Body

/-- Result of one handler invocation: final state and HTTP response. -/
structure HResult where
  st : St
  resp : Response

/-! ## JavaScript numbers and form-field helpers

JS numbers reaching command lines are finite decimals; they are modelled as
explicit fractions with positive denominator.  (`Rat` is avoided because its
arithmetic is `@[irreducible]`, which blocks kernel evaluation.) -/

/-- A finite JavaScript number, as an un-normalised fraction `num / den`
(`den` is always a positive power of ten by construction). -/
structure JsNum where
  num : Int
  den : Nat
deriving DecidableEq, Repr

instance : OfNat JsNum n := ⟨⟨(n : Int), 1⟩⟩

/-- `Math.round(q) = ⌊q + 1/2⌋` (JS rounds half toward `+∞`). -/
def jsRound (q : JsNum) : Int := Int.fdiv (2 * q.num + (q.den : Int)) (2 * (q.den : Int))

/-- Render a number into a command line.  Integral values print as JS does
(`612`); the decimal rendering of non-integral values is abstracted as
`num/den`, which no claim depends on. -/
def qStr (q : JsNum) : String :=
  if q.den = 1 then toString q.num else toString q.num ++ "/" ++ toString q.den

def iStr (n : Int) : String := toString n

def isDigit (c : Char) : Bool := 48 ≤ c.toNat && c.toNat ≤ 57

def natOfDigits (l : List Char) : Nat :=
  l.foldl (fun a c => a * 10 + (c.toNat - 48)) 0

def spanDigits : List Char → List Char × List Char
  | [] => ([], [])
  | c :: cs =>
      if isDigit c then
        let r := spanDigits cs
        (c :: r.1, r.2)
      else ([], c :: cs)

def skipWs : List Char → List Char
  | [] => []
  | c :: cs => if c = ' ' ∨ c = '\t' ∨ c = '\n' ∨ c = '\r' then skipWs cs else c :: cs

def expPart (q : JsNum) (l : List Char) : JsNum :=
  match spanDigits l with
  | ([], _) => q
  | (ds, _) => ⟨q.num * 10 ^ natOfDigits ds, q.den⟩

def expPartNeg (q : JsNum) (l : List Char) : JsNum :=
  match spanDigits l with
  | ([], _) => q
  | (ds, _) => ⟨q.num, q.den * 10 ^ natOfDigits ds⟩

/-- Apply a trailing `e`/`E` exponent, if present, to a parsed mantissa. -/
def applyExp (q : JsNum) : List Char → JsNum
  | c :: rest =>
      if c = 'e' ∨ c = 'E' then
        match rest with
        | '+' :: r2 => expPart q r2
        | '-' :: r2 => expPartNeg q r2
        | r2 => expPart q r2
      else q
  | [] => q

/-- Parse an unsigned decimal literal prefix (`123`, `123.45`, `.5`, `5.`,
with an optional exponent); `none` when no digit is found (NaN). -/
def parseUnsigned (l : List Char) : Option JsNum :=
  let ip := spanDigits l
  let fp :=
    match ip.2 with
    | '.' :: rest => spanDigits rest
    | r => ([], r)
  if ip.1.isEmpty ∧ fp.1.isEmpty then none
  else
    some (applyExp ⟨(natOfDigits (ip.1 ++ fp.1) : Int), 10 ^ fp.1.length⟩ fp.2)

/-- Modelled from the builtin: JavaScript `parseFloat`, restricted to finite
decimal literals (an optional sign, digits with an optional fraction and
exponent, longest valid prefix, trailing garbage ignored); `none` is NaN.
The `Infinity` spellings are not modelled. -/
def parseFloat (s : String) : Option JsNum :=
  match skipWs s.data with
  | '-' :: rest => (parseUnsigned rest).map (fun q => ⟨-q.num, q.den⟩)
  | '+' :: rest => parseUnsigned rest
  | l => parseUnsigned l

/-- `parseFloat(field) || default`: an absent field, a NaN parse and the
falsy number 0 all yield the default. -/
def numParam (v : Option String) (d : JsNum) : JsNum :=
  match v with
  | none => d
  | some s =>
      match parseFloat s with
      | none => d
      | some q => if q.num = 0 then d else q

/-- `field || default` for string fields: absent and empty are falsy. -/
def strParam (v : Option String) (d : String) : String :=
  match v with
  | none => d
  | some s => if s = "" then d else s

/-- `getExtension(mimetype)` helper shared by all three files. -/
def getExtension (m : String) : String :=
  if m = "image/png" then ".png"
  else if m = "image/jpeg" then ".jpg"
  else if m = "image/jpg" then ".jpg"
  else if m = "image/gif" then ".gif"
  else if m = "image/webp" then ".webp"
  else if m = "application/pdf" then ".pdf"
  else ".bin"

/-! ## Requests -/

/-- A multipart upload: the in-memory buffer and its mimetype. -/
structure UploadFile where
  bytes : List Nat
  mimetype : String
deriving DecidableEq, Repr

/-- A request to any of the three POST endpoints: the two optional files
and the raw string form fields. -/
structure Request where
  template : Option UploadFile
  artwork : Option UploadFile
  layerName : Option String
  x : Option String
  y : Option String
  width : Option String
  height : Option String
  pageWidth : Option String
  pageHeight : Option String
  artworkLayerName : Option String
deriving DecidableEq, Repr

/-! ## Shared paths -/

def tPathOf (id : String) : Path := ⟨id, "template.pdf"⟩
def aPathOf (id m : String) : Path := ⟨id, "artwork" ++ getExtension m⟩
def aPngPath (id : String) : Path := ⟨id, "artwork.png"⟩
def apdfPath (id : String) : Path := ⟨id, "artwork.pdf"⟩
def outPath (id : String) : Path := ⟨id, "output.pdf"⟩
def rawPath (id : String) : Path := ⟨id, "artwork_raw.pdf"⟩
def tFlatPath (id : String) : Path := ⟨id, "template_flat.png"⟩
def aFlatPath (id : String) : Path := ⟨id, "artwork_flat.png"⟩
def compPath (id : String) : Path := ⟨id, "composite.png"⟩
def interPath (id : String) : Path := ⟨id, "intermediate.pdf"⟩
def imagePsPath (id : String) : Path := ⟨id, "image.ps"⟩
def compositePsPath (id : String) : Path := ⟨id, "composite.ps"⟩
def overlayPsPath (id : String) : Path := ⟨id, "overlay.ps"⟩
def layeredPsPath (id : String) : Path := ⟨id, "layered.ps"⟩

def JsNum.neg (q : JsNum) : JsNum := ⟨-q.num, q.den⟩

/-! ## External commands of `src/server.js` (`mergeA` = its /api/merge-pdf-layers)

Each `Cmd` transcribes one `execSync` template-literal of the source; the
`prog` field is the first word of that command line. -/

/-- `convert "<artwork>" -resize <w>x<h>! "<artwork.pdf>"` (src/server.js:107). -/
def cConvA (id m : String) (w h : JsNum) : Cmd :=
  ⟨"convert", pq (aPathOf id m) ++ " -resize " ++ qStr w ++ "x" ++ qStr h ++ "! " ++
      pq (apdfPath id),
    [aPathOf id m], [apdfPath id]⟩

/-- The full-quality Ghostscript merge of template and artwork PDFs
(src/server.js:152-158). -/
def cMergeA (id : String) : Cmd :=
  ⟨"gs", "-dNOPAUSE -dBATCH -sDEVICE=pdfwrite -dPDFSETTINGS=/prepress " ++
      "-dCompatibilityLevel=1.7 -dPreserveOPIComments=true -dPreserveOverprintSettings=true " ++
      "-sOutputFile=" ++ pq (outPath id) ++ " " ++ pq (tPathOf id) ++ " " ++
      pq (apdfPath id) ++ " 2>&1",
    [tPathOf id, apdfPath id], [outPath id]⟩

/-- Fallback "simpler merge": Ghostscript over the template only
(src/server.js:169-171). -/
def cSimpleA (id : String) : Cmd :=
  ⟨"gs", "-dNOPAUSE -dBATCH -sDEVICE=pdfwrite -sOutputFile=" ++ pq (outPath id) ++
      " " ++ pq (tPathOf id) ++ " 2>&1",
    [tPathOf id], [outPath id]⟩

/-! ## External commands of `src/railway-api/server.js` (`mergeR`) -/

/-- `convert "<artwork>" "<jobDir>/artwork_raw.pdf"` (railway:129). -/
def cR1 (id m : String) : Cmd :=
  ⟨"convert", pq (aPathOf id m) ++ " " ++ pq (rawPath id), [aPathOf id m], [rawPath id]⟩

/-- Ghostscript resize of the raw artwork PDF to the exact page size
(railway:133-140). -/
def cR2 (id : String) (pW pH : JsNum) : Cmd :=
  ⟨"gs", "-dNOPAUSE -dBATCH -sDEVICE=pdfwrite -dFIXEDMEDIA -dDEVICEWIDTHPOINTS=" ++
      qStr pW ++ " -dDEVICEHEIGHTPOINTS=" ++ qStr pH ++
      " -dPDFFitPage -dCompatibilityLevel=1.7 -sOutputFile=" ++ pq (apdfPath id) ++
      " " ++ pq (rawPath id),
    [rawPath id], [apdfPath id]⟩

/-- ImageMagick fallback conversion with page geometry (railway:146-149). -/
def cR3 (id m : String) (pW pH : JsNum) : Cmd :=
  ⟨"convert", pq (aPathOf id m) ++ " -resize " ++ iStr (jsRound pW) ++ "x" ++
      iStr (jsRound pH) ++ "! -density 72 -units PixelsPerInch -page " ++
      iStr (jsRound pW) ++ "x" ++ iStr (jsRound pH) ++ "+0+0 " ++ pq (apdfPath id),
    [aPathOf id m], [apdfPath id]⟩

/-- `qpdf "<template>" --underlay "<artwork.pdf>" -- "<output>"`
(railway:157, part_000:148). -/
def cQpdfUnder (id : String) : Cmd :=
  ⟨"qpdf", pq (tPathOf id) ++ " --underlay " ++ pq (apdfPath id) ++ " -- " ++ pq (outPath id),
    [tPathOf id, apdfPath id], [outPath id]⟩

/-- `pdftk "<template>" background "<artwork.pdf>" output "<output>"`
(railway:165, part_000:140). -/
def cPdftkBg (id : String) : Cmd :=
  ⟨"pdftk", pq (tPathOf id) ++ " background " ++ pq (apdfPath id) ++ " output " ++
      pq (outPath id),
    [tPathOf id, apdfPath id], [outPath id]⟩

/-- Rasterise the first page of the template at 300 dpi (railway:176). -/
def cImR1 (id : String) : Cmd :=
  ⟨"convert", "-density 300 " ++ qd (pathStr (tPathOf id) ++ "[0]") ++ " " ++
      pq (tFlatPath id),
    [tPathOf id], [tFlatPath id]⟩

/-- Rasterise the first page of the artwork PDF at 300 dpi (railway:177). -/
def cImR2 (id : String) : Cmd :=
  ⟨"convert", "-density 300 " ++ qd (pathStr (apdfPath id) ++ "[0]") ++ " " ++
      pq (aFlatPath id),
    [apdfPath id], [aFlatPath id]⟩

/-- Composite artwork below, template on top (railway:180, part_000:223). -/
def cComposite (id : String) : Cmd :=
  ⟨"convert", pq (aFlatPath id) ++ " " ++ pq (tFlatPath id) ++ " -composite " ++
      pq (compPath id),
    [aFlatPath id, tFlatPath id], [compPath id]⟩

/-- Composite PNG back to a PDF with page geometry (railway:183-186). -/
def cImR4 (id : String) (pW pH : JsNum) : Cmd :=
  ⟨"convert", pq (compPath id) ++ " -density 72 -units PixelsPerInch -page " ++
      iStr (jsRound pW) ++ "x" ++ iStr (jsRound pH) ++ "+0+0 " ++ pq (outPath id),
    [compPath id], [outPath id]⟩

/-! ## External commands of `src/unnamed/part_000` (`mergeU`) -/

/-- `convert "<artwork>" -resize <rW>x<rH>! -density 72 "<artwork.pdf>"`
(part_000:107). -/
def cU1 (id m : String) (pW pH : JsNum) : Cmd :=
  ⟨"convert", pq (aPathOf id m) ++ " -resize " ++ iStr (jsRound pW) ++ "x" ++
      iStr (jsRound pH) ++ "! -density 72 " ++ pq (apdfPath id),
    [aPathOf id m], [apdfPath id]⟩

/-- Ghostscript conversion of the generated `image.ps` (part_000:127). -/
def cU2 (id : String) : Cmd :=
  ⟨"gs", "-dNOPAUSE -dBATCH -sDEVICE=pdfwrite -sOutputFile=" ++ pq (apdfPath id) ++
      " " ++ pq (imagePsPath id),
    [imagePsPath id], [apdfPath id]⟩

/-- Ghostscript pass creating the artwork base layer (part_000:187-196). -/
def cGsU1 (id : String) (pW pH : JsNum) : Cmd :=
  ⟨"gs", "-dNOPAUSE -dBATCH -sDEVICE=pdfwrite -dPDFSETTINGS=/prepress " ++
      "-dCompatibilityLevel=1.7 -dAutoRotatePages=/None -dFirstPage=1 -dLastPage=1 " ++
      "-dFIXEDMEDIA -dDEVICEWIDTHPOINTS=" ++ qStr pW ++ " -dDEVICEHEIGHTPOINTS=" ++
      qStr pH ++ " -sOutputFile=" ++ pq (interPath id) ++ " " ++ pq (apdfPath id) ++ " 2>&1",
    [apdfPath id], [interPath id]⟩

/-- Ghostscript pass overlaying the template via a pdfmark (part_000:202-210). -/
def cGsU2 (id : String) (pH : JsNum) : Cmd :=
  ⟨"gs", "-dNOPAUSE -dBATCH -sDEVICE=pdfwrite -dPDFSETTINGS=/prepress " ++
      "-dCompatibilityLevel=1.7 -dAutoRotatePages=/None -dFirstPage=1 -dLastPage=1 " ++
      "-sOutputFile=" ++ pq (outPath id) ++ " " ++ pq (interPath id) ++ " -c " ++
      qd ("[/Page 1 /View [/XYZ 0 " ++ qStr pH ++ " 1] /DEST pdfmark") ++
      " -f " ++ pq (tPathOf id) ++ " 2>&1",
    [interPath id, tPathOf id], [outPath id]⟩

/-- Rasterise and resize the artwork PDF (part_000:221). -/
def cUF1 (id : String) (pW pH : JsNum) : Cmd :=
  ⟨"convert", "-density 300 " ++ qd (pathStr (apdfPath id) ++ "[0]") ++ " -resize " ++
      iStr (jsRound pW) ++ "x" ++ iStr (jsRound pH) ++ "! " ++ pq (aFlatPath id),
    [apdfPath id], [aFlatPath id]⟩

/-- Rasterise and resize the template (part_000:222). -/
def cUF2 (id : String) (pW pH : JsNum) : Cmd :=
  ⟨"convert", "-density 300 " ++ qd (pathStr (tPathOf id) ++ "[0]") ++ " -resize " ++
      iStr (jsRound pW) ++ "x" ++ iStr (jsRound pH) ++ "! " ++ pq (tFlatPath id),
    [tPathOf id], [tFlatPath id]⟩

/-- Composite PNG back to a PDF, without page geometry (part_000:224). -/
def cUF4 (id : String) : Cmd :=
  ⟨"convert", pq (compPath id) ++ " -density 72 -units PixelsPerInch " ++ pq (outPath id),
    [compPath id], [outPath id]⟩

/-- The Ghostscript command of the three identical /api/overlay-artwork
handlers: it processes **only the template** (server.js:278-282,
railway:300-304, part_000:340-344); `overlay.ps` is never passed to it. -/
def cOverlayGs (id : String) : Cmd :=
  ⟨"gs", "-dNOPAUSE -dBATCH -sDEVICE=pdfwrite -dCompatibilityLevel=1.7 " ++
      "-dPDFSETTINGS=/prepress -sOutputFile=" ++ pq (outPath id) ++ " " ++ pq (tPathOf id),
    [tPathOf id], [outPath id]⟩

/-- The Ghostscript command of the three identical /api/create-layered-pdf
handlers (server.js:406-410 and twins): converts `layered.ps`. -/
def cLayeredGs (id : String) : Cmd :=
  ⟨"gs", "-dNOPAUSE -dBATCH -sDEVICE=pdfwrite -dCompatibilityLevel=1.7 " ++
      "-dPDFSETTINGS=/prepress -sOutputFile=" ++ pq (outPath id) ++ " " ++
      pq (layeredPsPath id) ++ " 2>&1",
    [layeredPsPath id], [outPath id]⟩

/-- `gs --version` (the /gs-version endpoint and startup checks). -/
def cGsVersion : Cmd := ⟨"gs", "--version", [], []⟩

/-! ## Generated PostScript scripts (written with `writeFileSync`) -/

/-- The overlay PostScript of /api/overlay-artwork (server.js:247-271 and
twins).  It is written to `overlay.ps` but never used by any command. -/
def overlayPs (id : String) (x y w h pW pH : JsNum) : String :=
  "\n%!PS-Adobe-3.0\n%%BoundingBox: 0 0 " ++ qStr pW ++ " " ++ qStr pH ++
  "\n%%Pages: 1\n%%EndComments\n\n%%Page: 1 1\n\n% Draw the artwork image\n" ++
  qStr x ++ " " ++ qStr y ++ " translate\n" ++ qStr w ++ " " ++ qStr h ++ " scale\n\n(" ++
  pathStr (aPngPath id) ++ ") (r) file /DCTDecode filter\n<< /ImageType 1\n   /Width " ++
  qStr w ++ "\n   /Height " ++ qStr h ++
  "\n   /BitsPerComponent 8\n   /Decode [0 1 0 1 0 1]\n   /ImageMatrix [1 0 0 -1 0 1]" ++
  "\n   /DataSource currentfile\n>> image\n\nshowpage\n%%EOF\n"

/-- The layered-PDF PostScript of /api/create-layered-pdf (server.js:345-400
and twins); `\x7b`/`\x7d` denote the literal braces of the pdfmark code. -/
def layeredPs (lname : String) (pW pH : JsNum) : String :=
  "%!PS-Adobe-3.0\n%%BoundingBox: 0 0 " ++ iStr (jsRound pW) ++ " " ++ iStr (jsRound pH) ++
  "\n%%Pages: 1\n%%EndComments\n\n% PDF Layer definitions using pdfmark\n" ++
  "/pdfmark where \x7bpop\x7d \x7buserdict /pdfmark /cleartomark load put\x7d ifelse\n\n" ++
  "% Create OCG (Optional Content Group) for artwork layer\n" ++
  "[/_objdef \x7bartwork_ocg\x7d /type /ocg /OC <<\n  /Name (" ++ lname ++ ")\n" ++
  "  /Intent /Design\n  /Usage << /CreatorInfo << /Creator (PrintPilot) /Subtype /Artwork >> >>\n" ++
  ">> /OC pdfmark\n\n% Create OCG for template/instructions layer\n" ++
  "[/_objdef \x7btemplate_ocg\x7d /type /ocg /OC <<\n  /Name (Template)\n  /Intent /View\n" ++
  ">> /OC pdfmark\n\n% Create OCProperties to register layers\n[\x7bCatalog\x7d <<\n" ++
  "  /OCProperties <<\n    /OCGs [\x7bartwork_ocg\x7d \x7btemplate_ocg\x7d]\n" ++
  "    /D << /Order [\x7bartwork_ocg\x7d \x7btemplate_ocg\x7d] /ON [\x7bartwork_ocg\x7d \x7btemplate_ocg\x7d] >>\n" ++
  "  >>\n>> /PUT pdfmark\n\n%%Page: 1 1\n<< /PageSize [" ++ qStr pW ++ " " ++ qStr pH ++
  "] >> setpagedevice\n\n% Begin artwork layer content\n[/OC \x7bartwork_ocg\x7d /BDC pdfmark\n\n" ++
  "% Draw artwork (placeholder - actual image embedding would go here)\n" ++
  "0.9 0.9 0.9 setrgbcolor\n0 0 " ++ qStr pW ++ " " ++ qStr pH ++ " rectfill\n\n" ++
  "% End artwork layer\n[/\nEMC pdfmark\n\n% Begin template layer\n" ++
  "[/OC \x7btemplate_ocg\x7d /BDC pdfmark\n\n% Template content would go here\n" ++
  "0 setgray\n0.5 setlinewidth\n0 0 " ++ qStr pW ++ " " ++ qStr pH ++ " rectstroke\n\n" ++
  "[/EMC pdfmark\n\nshowpage\n%%EOF\n"

/-- The `image.ps` written by the Ghostscript fallback of part_000
(part_000:112-126). -/
def imagePsU (id m : String) (pW pH : JsNum) : String :=
  "%!PS-Adobe-3.0\n<< /PageSize [" ++ qStr pW ++ " " ++ qStr pH ++ "] >> setpagedevice\n(" ++
  pathStr (aPathOf id m) ++ ") (r) file /DCTDecode filter\n<< /ImageType 1\n   /Width " ++
  iStr (jsRound pW) ++ "\n   /Height " ++ iStr (jsRound pH) ++
  "\n   /BitsPerComponent 8\n   /Decode [0 1 0 1 0 1]\n   /ImageMatrix [" ++
  iStr (jsRound pW) ++ " 0 0 " ++ iStr (jsRound pH.neg) ++ " 0 " ++ iStr (jsRound pH) ++
  "]\n   /DataSource currentfile\n>> image\nshowpage\n"

/-- The `composite.ps` prolog written (and then never used by any command)
in method 3 of part_000 (lines 157-182). -/
def compositePsU (pW pH : JsNum) : String :=
  "%!PS-Adobe-3.0 EPSF-3.0\n%%BoundingBox: 0 0 " ++ iStr (jsRound pW) ++ " " ++
  iStr (jsRound pH) ++ "\n%%Pages: 1\n%%EndComments\n%%BeginProlog\n" ++
  "/BeginEPSF \x7b\n  /b4_Inc_state save def\n  /dict_count countdictstack def\n" ++
  "  /op_count count 1 sub def\n  userdict begin\n  /showpage \x7b \x7d def\n" ++
  "  0 setgray 0 setlinecap 1 setlinewidth 0 setlinejoin\n" ++
  "  10 setmiterlimit [ ] 0 setdash newpath\n" ++
  "  /languagelevel where \x7b pop languagelevel 1 ne \x7b false setstrokeadjust false setoverprint \x7d if \x7d if\n" ++
  "\x7d bind def\n/EndEPSF \x7b\n  count op_count sub \x7bpop\x7d repeat\n" ++
  "  countdictstack dict_count sub \x7bend\x7d repeat\n  b4_Inc_state restore\n\x7d bind def\n" ++
  "%%EndProlog\n%%Page: 1 1\n<< /PageSize [" ++ qStr pW ++ " " ++ qStr pH ++
  "] >> setpagedevice\n"

/-! ## Dead code: strings the handlers build but never use -/

/-- `convertCmd` of src/server.js:100-103: defined but never executed. -/
def deadConvertCmdA (id m : String) (w h : JsNum) : String :=
  "gs -dNOPAUSE -dBATCH -sDEVICE=pdfwrite -dEPSCrop -sOutputFile=" ++ pq (apdfPath id) ++
  " -c " ++ qd ("<< /PageSize [" ++ qStr w ++ " " ++ qStr h ++ "] >> setpagedevice") ++
  " -f " ++ pq (aPathOf id m) ++ " 2>&1 || convert " ++ pq (aPathOf id m) ++
  " -resize " ++ qStr w ++ "x" ++ qStr h ++ " " ++ pq (apdfPath id)

/-- `psContent` of src/server.js:111-129: built inside the catch block,
never written to disk. -/
def deadPsContentA (id m : String) (w h : JsNum) : String :=
  "\n%!PS\n/img \x7b\n  (" ++ pathStr (aPathOf id m) ++ ") (r) file\n  << /PageSize [" ++
  qStr w ++ " " ++ qStr h ++ "] >> setpagedevice\n  0 0 translate\n  " ++ qStr w ++ " " ++
  qStr h ++ " scale\n  /DeviceRGB setcolorspace\n  << /ImageType 1\n     /Width " ++ qStr w ++
  "\n     /Height " ++ qStr h ++ "\n     /BitsPerComponent 8\n     /Decode [0 1 0 1 0 1]" ++
  "\n     /ImageMatrix [" ++ qStr w ++ " 0 0 -" ++ qStr h ++ " 0 " ++ qStr h ++
  "]\n     /DataSource currentfile /ASCIIHexDecode filter\n  >> image\n\x7d def\nshowpage\n"

/-- `psLayerScript` of src/server.js:137-148: built from `layerName`,
never written to disk and never passed to any tool. -/
def deadPsLayerScriptA (layerName : String) : String :=
  "\n%!PS-Adobe-3.0\n% PDF with Layers (OCG) - PrintPilot Generator\n\n" ++
  "/pdfmark where \x7bpop\x7d \x7buserdict /pdfmark /cleartomark load put\x7d ifelse\n\n" ++
  "% Define the layer (OCG)\n[/OC << /Name (" ++ layerName ++
  ") /Intent /View /Usage << /CreatorInfo << /Creator (PrintPilot) /Subtype /Artwork >> >> >> /OC pdfmark\n\n" ++
  "% Start layer content\n[\x7bThisPage\x7d << /Contents [\x7bstream\x7d] >> /PUT pdfmark\n"

/-- `gsConvertCmd` of railway:112-125: defined but never executed. -/
def deadGsConvertCmdR (id m : String) (pW pH : JsNum) : String :=
  "gs -dNOPAUSE -dBATCH -sDEVICE=pdfwrite -dFIXEDMEDIA -dDEVICEWIDTHPOINTS=" ++ qStr pW ++
  " -dDEVICEHEIGHTPOINTS=" ++ qStr pH ++ " -dPDFFitPage -sOutputFile=" ++ pq (apdfPath id) ++
  " -c " ++ qd ("<< /PageSize [" ++ qStr pW ++ " " ++ qStr pH ++ "] >> setpagedevice") ++
  " -f - << \x27EOPS\x27\n%!PS-Adobe-3.0\n(" ++ pathStr (aPathOf id m) ++
  ") (r) file\n/str 1000 string def\n\x7b currentfile str readhexstring \x7d\nshowpage\nEOPS"

/-! ## Handler bodies as programs -/

/-- Body of src/server.js /api/merge-pdf-layers: save both uploads, try the
ImageMagick conversion (its failure is swallowed, the catch only logs),
then the Ghostscript merge with the simpler merge as fallback. -/
def mergeAProg (id : String) (t a : UploadFile) (w h : JsNum) : Prog :=
  .seq (.write (tPathOf id) (.upload t.bytes))
  (.seq (.write (aPathOf id a.mimetype) (.upload a.bytes))
  (.seq (.tryCatch (.run (cConvA id a.mimetype w h)) .skip)
  (.tryCatch (.run (cMergeA id)) (.run (cSimpleA id)))))

/-- Railway step 2 (lines 110-150): ImageMagick raw conversion plus
Ghostscript resize, with the ImageMagick geometry conversion as fallback. -/
def step2RProg (id m : String) (pW pH : JsNum) : Prog :=
  .tryCatch (.seq (.run (cR1 id m)) (.run (cR2 id pW pH))) (.run (cR3 id m pW pH))

/-- Railway step 3 (lines 152-195): the qpdf → pdftk → ImageMagick → copy
fallback cascade. -/
def cascadeRProg (id : String) (pW pH : JsNum) : Prog :=
  .tryCatch (.run (cQpdfUnder id))
  (.tryCatch (.run (cPdftkBg id))
  (.tryCatch (.seq (.run (cImR1 id))
             (.seq (.run (cImR2 id))
             (.seq (.run (cComposite id)) (.run (cImR4 id pW pH)))))
  (.copyFile (apdfPath id) (outPath id))))

/-- Body of src/railway-api/server.js /api/merge-pdf-layers. -/
def mergeRProg (id : String) (t a : UploadFile) (pW pH : JsNum) : Prog :=
  .seq (.write (tPathOf id) (.upload t.bytes))
  (.seq (.write (aPathOf id a.mimetype) (.upload a.bytes))
  (.seq (step2RProg id a.mimetype pW pH)
  (cascadeRProg id pW pH)))

/-- part_000 step 2 (lines 104-128): ImageMagick conversion, with writing
`image.ps` and converting it through Ghostscript as fallback. -/
def step2UProg (id m : String) (pW pH : JsNum) : Prog :=
  .tryCatch (.run (cU1 id m pW pH))
    (.seq (.write (imagePsPath id) (.script (imagePsU id m pW pH))) (.run (cU2 id)))

/-- part_000 step 3 (lines 130-235): the pdftk → qpdf → Ghostscript-and-
ImageMagick method 3 → copy fallback cascade. -/
def cascadeUProg (id : String) (pW pH : JsNum) : Prog :=
  .tryCatch (.run (cPdftkBg id))
  (.tryCatch (.run (cQpdfUnder id))
  (.tryCatch (.seq (.write (compositePsPath id) (.script (compositePsU pW pH)))
             (.seq (.run (cGsU1 id pW pH))
             (.seq (.run (cGsU2 id pH))
             (.seq (.run (cUF1 id pW pH))
             (.seq (.run (cUF2 id pW pH))
             (.seq (.run (cComposite id)) (.run (cUF4 id))))))))
  (.copyFile (apdfPath id) (outPath id))))

/-- Body of src/unnamed/part_000 /api/merge-pdf-layers. -/
def mergeUProg (id : String) (t a : UploadFile) (pW pH : JsNum) : Prog :=
  .seq (.write (tPathOf id) (.upload t.bytes))
  (.seq (.write (aPathOf id a.mimetype) (.upload a.bytes))
  (.seq (step2UProg id a.mimetype pW pH)
  (cascadeUProg id pW pH)))

/-- Body of the three identical /api/overlay-artwork handlers: save both
uploads, write `overlay.ps`, then run Ghostscript **on the template only**
(`overlay.ps` is never passed to any command). -/
def overlayProg (id : String) (t a : UploadFile) (x y w h pW pH : JsNum) : Prog :=
  .seq (.write (tPathOf id) (.upload t.bytes))
  (.seq (.write (aPngPath id) (.upload a.bytes))
  (.seq (.write (overlayPsPath id) (.script (overlayPs id x y w h pW pH)))
  (.run (cOverlayGs id))))

/-- Body of the three identical /api/create-layered-pdf handlers. -/
def createProg (id : String) (a : UploadFile) (tpl : Option UploadFile)
    (lname : String) (pW pH : JsNum) : Prog :=
  .seq (.write (aPngPath id) (.upload a.bytes))
  (.seq (match tpl with
         | some t => .write (tPathOf id) (.upload t.bytes)
         | none => .skip)
  (.seq (.write (layeredPsPath id) (.script (layeredPs lname pW pH)))
  (.run (cLayeredGs id))))

/-! ## Handlers -/

/-- Common handler tail: on success check that `output.pdf` exists (reading
it back), clean up the job directory, and answer 200 with the PDF; any
propagated error reaches the outer catch, which also cleans up and answers
500 with a JSON error. -/
def finishJob (id msg : String) (r : Except (St × String) St) : HResult :=
  match r with
  | .error (s, m) => ⟨cleanup id s, 500, .json m⟩
  | .ok s =>
      match fsGet s.fs (outPath id) with
      | some c => ⟨cleanup id s, 200, .pdf c⟩
      | none => ⟨cleanup id s, 500, .json msg⟩

/-- /api/merge-pdf-layers of src/server.js (lines 56-205). -/
def mergeA (env : Env) (id : String) (req : Request) : HResult :=
  let s0 := mkdirJob id St.init
  match req.template with
  | none => ⟨s0, 400, .json "Template PDF is required"⟩
  | some t =>
    match req.artwork with
    | none => ⟨s0, 400, .json "Artwork image is required"⟩
    | some a =>
      let layerName := strParam req.layerName "ARTWORK HERE"
      let _x := numParam req.x 0
      let _y := numParam req.y 0
      let width := numParam req.width 612
      let height := numParam req.height 792
      let _dead1 := deadConvertCmdA id a.mimetype width height
      let _dead2 := deadPsContentA id a.mimetype width height
      let _dead3 := deadPsLayerScriptA layerName
      finishJob id "Output PDF was not created"
        (interp env (mergeAProg id t a width height) s0)

/-- /api/merge-pdf-layers of src/railway-api/server.js (lines 56-227). -/
def mergeR (env : Env) (id : String) (req : Request) : HResult :=
  let s0 := mkdirJob id St.init
  match req.template with
  | none => ⟨s0, 400, .json "Template PDF is required"⟩
  | some t =>
    match req.artwork with
    | none => ⟨s0, 400, .json "Artwork image is required"⟩
    | some a =>
      let _layerName := strParam req.layerName "ARTWORK HERE"
      let _x := numParam req.x 0
      let _y := numParam req.y 0
      let width := numParam req.width 612
      let height := numParam req.height 792
      let pageWidth := numParam req.pageWidth width
      let pageHeight := numParam req.pageHeight height
      let _dead := deadGsConvertCmdR id a.mimetype pageWidth pageHeight
      finishJob id "Output PDF was not created"
        (interp env (mergeRProg id t a pageWidth pageHeight) s0)

/-- /api/merge-pdf-layers of src/unnamed/part_000 (lines 56-267). -/
def mergeU (env : Env) (id : String) (req : Request) : HResult :=
  let s0 := mkdirJob id St.init
  match req.template with
  | none => ⟨s0, 400, .json "Template PDF is required"⟩
  | some t =>
    match req.artwork with
    | none => ⟨s0, 400, .json "Artwork image is required"⟩
    | some a =>
      let _layerName := strParam req.layerName "ARTWORK HERE"
      let _x := numParam req.x 0
      let _y := numParam req.y 0
      let width := numParam req.width 612
      let height := numParam req.height 792
      let pageWidth := numParam req.pageWidth width
      let pageHeight := numParam req.pageHeight height
      finishJob id "Output PDF was not created"
        (interp env (mergeUProg id t a pageWidth pageHeight) s0)

/-- /api/overlay-artwork of src/server.js (lines 213-298). -/
def overlayArtworkA (env : Env) (id : String) (req : Request) : HResult :=
  let s0 := mkdirJob id St.init
  match req.template, req.artwork with
  | some t, some a =>
      let x := numParam req.x 0
      let y := numParam req.y 0
      let width := numParam req.width 0
      let height := numParam req.height 0
      let pageWidth := numParam req.pageWidth 612
      let pageHeight := numParam req.pageHeight 792
      finishJob id "ENOENT: no such file or directory"
        (interp env (overlayProg id t a x y width height pageWidth pageHeight) s0)
  | _, _ => ⟨s0, 400, .json "Both template and artwork files are required"⟩

/-- /api/overlay-artwork of src/railway-api/server.js (lines 235-320);
textually identical to the src/server.js handler. -/
def overlayArtworkR (env : Env) (id : String) (req : Request) : HResult :=
  let s0 := mkdirJob id St.init
  match req.template, req.artwork with
  | some t, some a =>
      let x := numParam req.x 0
      let y := numParam req.y 0
      let width := numParam req.width 0
      let height := numParam req.height 0
      let pageWidth := numParam req.pageWidth 612
      let pageHeight := numParam req.pageHeight 792
      finishJob id "ENOENT: no such file or directory"
        (interp env (overlayProg id t a x y width height pageWidth pageHeight) s0)
  | _, _ => ⟨s0, 400, .json "Both template and artwork files are required"⟩

/-- /api/overlay-artwork of src/unnamed/part_000 (lines 275-360);
textually identical to the src/server.js handler. -/
def overlayArtworkU (env : Env) (id : String) (req : Request) : HResult :=
  let s0 := mkdirJob id St.init
  match req.template, req.artwork with
  | some t, some a =>
      let x := numParam req.x 0
      let y := numParam req.y 0
      let width := numParam req.width 0
      let height := numParam req.height 0
      let pageWidth := numParam req.pageWidth 612
      let pageHeight := numParam req.pageHeight 792
      finishJob id "ENOENT: no such file or directory"
        (interp env (overlayProg id t a x y width height pageWidth pageHeight) s0)
  | _, _ => ⟨s0, 400, .json "Both template and artwork files are required"⟩

/-- /api/create-layered-pdf of src/server.js (lines 308-432). -/
def createLayeredA (env : Env) (id : String) (req : Request) : HResult :=
  let s0 := mkdirJob id St.init
  match req.artwork with
  | none => ⟨s0, 400, .json "Artwork image is required"⟩
  | some a =>
      let pageWidth := numParam req.pageWidth 612
      let pageHeight := numParam req.pageHeight 792
      let lname := strParam req.artworkLayerName "ARTWORK HERE"
      finishJob id "Failed to create output PDF"
        (interp env (createProg id a req.template lname pageWidth pageHeight) s0)

/-- /api/create-layered-pdf of src/railway-api/server.js (lines 330-454);
textually identical to the src/server.js handler. -/
def createLayeredR (env : Env) (id : String) (req : Request) : HResult :=
  let s0 := mkdirJob id St.init
  match req.artwork with
  | none => ⟨s0, 400, .json "Artwork image is required"⟩
  | some a =>
      let pageWidth := numParam req.pageWidth 612
      let pageHeight := numParam req.pageHeight 792
      let lname := strParam req.artworkLayerName "ARTWORK HERE"
      finishJob id "Failed to create output PDF"
        (interp env (createProg id a req.template lname pageWidth pageHeight) s0)

/-- /api/create-layered-pdf of src/unnamed/part_000 (lines 370-494);
textually identical to the src/server.js handler. -/
def createLayeredU (env : Env) (id : String) (req : Request) : HResult :=
  let s0 := mkdirJob id St.init
  match req.artwork with
  | none => ⟨s0, 400, .json "Artwork image is required"⟩
  | some a =>
      let pageWidth := numParam req.pageWidth 612
      let pageHeight := numParam req.pageHeight 792
      let lname := strParam req.artworkLayerName "ARTWORK HERE"
      finishJob id "Failed to create output PDF"
        (interp env (createProg id a req.template lname pageWidth pageHeight) s0)

/-- GET / health check (all three files). -/
def healthHandler : HResult := ⟨St.init, 200, .json "PrintPilot PDF API is running"⟩

/-- GET /gs-version (all three files). -/
def gsVersionHandler (env : Env) : HResult :=
  match interp env (.run cGsVersion) St.init with
  | .ok s => ⟨s, 200, .json "ghostscript"⟩
  | .error (s, _) => ⟨s, 500, .json "Ghostscript not installed"⟩

/-! ## Static measures of a program, used to state invariants -/

/-- The paths a program writes with `writeFileSync`. -/
def Prog.writtenPaths : Prog → List Path
  | .write p _ => [p]
  | .seq a b => a.writtenPaths ++ b.writtenPaths
  | .tryCatch a b => a.writtenPaths ++ b.writtenPaths
  | _ => []

/-- The source paths of the `copyFileSync` calls of a program. -/
def Prog.copySrcs : Prog → List Path
  | .copyFile src _ => [src]
  | .seq a b => a.copySrcs ++ b.copySrcs
  | .tryCatch a b => a.copySrcs ++ b.copySrcs
  | _ => []

/-- Every command a program can possibly execute. -/
def Prog.cmdList : Prog → List Cmd
  | .run c => [c]
  | .seq a b => a.cmdList ++ b.cmdList
  | .tryCatch a b => a.cmdList ++ b.cmdList
  | _ => []

/-- All file contents outside `bad` are outputs of external tools.  The
paths in `bad` are the ones `writeFileSync` may have touched. -/
def Good (bad : List Path) (s : St) : Prop :=
  ∀ p c, fsGet s.fs p = some c → p ∉ bad → isToolOut c = true

/-- The binary of this command is one of the four documented external
tools. -/
def cmdOk (c : Cmd) : Bool :=
  c.prog = "gs" || c.prog = "convert" || c.prog = "qpdf" || c.prog = "pdftk"

/-- A request was rejected by upload validation: HTTP 400, a JSON error
body, and no external command was executed. -/
def rejected400 (r : HResult) : Prop :=
  r.resp.status = 400 ∧ r.resp.body.isJsonB = true ∧ r.st.cmds = []

/-- The response body is a PDF produced by an external tool. -/
def respIsToolPdf (r : HResult) : Prop :=
  ∃ c, r.resp.body = .pdf c ∧ isToolOut c = true

/-- Every tracked path currently holding a file holds an external-tool
output. -/
def GoodT (tr : List Path) (s : St) : Prop :=
  ∀ p ∈ tr, ∀ c, fsGet s.fs p = some c → isToolOut c = true

/-- The handler wrote both upload buffers, unchanged, to the given paths. -/
def savesUploads (r : HResult) (tp ap : Path) (t a : UploadFile) : Prop :=
  (tp, Content.upload t.bytes) ∈ r.st.writes ∧ (ap, Content.upload a.bytes) ∈ r.st.writes

/-- The state after running the railway merge fallback cascade from `s`. -/
def cascadeRun (env : Env) (id : String) (pW pH : JsNum) (s : St) : St :=
  resSt (interp env (cascadeRProg id pW pH) s)

/-- An environment in which every external command succeeds. -/
def envAll : Env := fun _ => true

/-- An environment in which every external command fails. -/
def envNone : Env := fun _ => false

/-- A sample valid request: a PDF template and a PNG artwork, all form
fields absent. -/
def reqSample : Request :=
  ⟨some ⟨[0], "application/pdf"⟩, some ⟨[1], "image/png"⟩,
   none, none, none, none, none, none, none, none⟩

/-- The same request with different artwork bytes. -/
def reqSample2 : Request :=
  ⟨some ⟨[0], "application/pdf"⟩, some ⟨[2], "image/png"⟩,
   none, none, none, none, none, none, none, none⟩

/-- A request with no uploads at all. -/
def reqEmpty : Request := ⟨none, none, none, none, none, none, none, none, none, none⟩

/-- A start state holding an already-converted artwork PDF, used to witness
the cascade theorem. -/
def stW : St := put (apdfPath "w") (Content.script "x") St.init

example : pathStr (tPathOf "j") = "/tmp/pdf-processing/j/template.pdf" := by rfl
example : parseFloat "0" = some ⟨0, 1⟩ := by decide
example : parseFloat "  -12.5e1" = some ⟨-1250, 10⟩ := by decide
example : parseFloat "abc" = none := by decide
example : numParam (some "0") 612 = 612 := by decide
example : numParam (some "3.5px") 612 = ⟨35, 10⟩ := by decide
example : numParam none 612 = 612 := by decide
example : jsRound ⟨15, 2⟩ = 8 := by decide
example : jsRound ⟨612, 1⟩ = 612 := by decide

/-! ## Basic state lemmas -/

@[simp] lemma wr_cmds (p c s) : (wr p c s).cmds = s.cmds := rfl
@[simp] lemma wr_copies (p c s) : (wr p c s).copies = s.copies := rfl
@[simp] lemma wr_dirs (p c s) : (wr p c s).dirs = s.dirs := rfl
@[simp] lemma wr_writes (p c s) : (wr p c s).writes = s.writes ++ [(p, c)] := rfl

@[simp] lemma put_cmds (p c s) : (put p c s).cmds = s.cmds := rfl
@[simp] lemma put_copies (p c s) : (put p c s).copies = s.copies := rfl
@[simp] lemma put_dirs (p c s) : (put p c s).dirs = s.dirs := rfl
@[simp] lemma put_writes (p c s) : (put p c s).writes = s.writes := rfl

@[simp] lemma recCmd_fs (c s) : (recCmd c s).fs = s.fs := rfl
@[simp] lemma recCmd_copies (c s) : (recCmd c s).copies = s.copies := rfl
@[simp] lemma recCmd_dirs (c s) : (recCmd c s).dirs = s.dirs := rfl
@[simp] lemma recCmd_writes (c s) : (recCmd c s).writes = s.writes := rfl
@[simp] lemma recCmd_cmds (c s) : (recCmd c s).cmds = s.cmds ++ [c] := rfl

@[simp] lemma putOuts_cmds (l c s) : (putOuts l c s).cmds = s.cmds := by
  induction l generalizing s with
  | nil => rfl
  | cons p l ih => simp [putOuts, ih]

@[simp] lemma putOuts_writes (l c s) : (putOuts l c s).writes = s.writes := by
  induction l generalizing s with
  | nil => rfl
  | cons p l ih => simp [putOuts, ih]

@[simp] lemma putOuts_copies (l c s) : (putOuts l c s).copies = s.copies := by
  induction l generalizing s with
  | nil => rfl
  | cons p l ih => simp [putOuts, ih]

@[simp] lemma putOuts_dirs (l c s) : (putOuts l c s).dirs = s.dirs := by
  induction l generalizing s with
  | nil => rfl
  | cons p l ih => simp [putOuts, ih]

@[simp] lemma runCmd_cmds (c s) : (runCmd c s).cmds = s.cmds ++ [c] := by
  simp [runCmd]
@[simp] lemma runCmd_writes (c s) : (runCmd c s).writes = s.writes := by
  simp [runCmd]
@[simp] lemma runCmd_copies (c s) : (runCmd c s).copies = s.copies := by
  simp [runCmd]
@[simp] lemma runCmd_dirs (c s) : (runCmd c s).dirs = s.dirs := by
  simp [runCmd]

@[simp] lemma docopy_cmds (p q c s) : (docopy p q c s).cmds = s.cmds := rfl
@[simp] lemma docopy_writes (p q c s) : (docopy p q c s).writes = s.writes := rfl
@[simp] lemma docopy_dirs (p q c s) : (docopy p q c s).dirs = s.dirs := rfl
@[simp] lemma docopy_copies (p q c s) : (docopy p q c s).copies = s.copies ++ [(p, q)] := rfl

@[simp] lemma cleanup_cmds (id s) : (cleanup id s).cmds = s.cmds := rfl
@[simp] lemma cleanup_writes (id s) : (cleanup id s).writes = s.writes := rfl
@[simp] lemma cleanup_copies (id s) : (cleanup id s).copies = s.copies := rfl

@[simp] lemma mkdirJob_cmds (id s) : (mkdirJob id s).cmds = s.cmds := rfl
@[simp] lemma mkdirJob_fs (id s) : (mkdirJob id s).fs = s.fs := rfl
@[simp] lemma mkdirJob_writes (id s) : (mkdirJob id s).writes = s.writes := rfl
@[simp] lemma mkdirJob_dirs (id s) : (mkdirJob id s).dirs = s.dirs ++ [id] := rfl

lemma mem_cleanup_dirs (id s) : id ∉ (cleanup id s).dirs := by
  simp [cleanup]

/-! ## File-system lookup lemmas -/

@[simp] lemma fsGet_wr (p c s q) :
    fsGet (wr p c s).fs q = if q = p then some c else fsGet s.fs q := rfl

@[simp] lemma fsGet_put (p c s q) :
    fsGet (put p c s).fs q = if q = p then some c else fsGet s.fs q := rfl

@[simp] lemma fsGet_docopy (p q c s r) :
    fsGet (docopy p q c s).fs r = if r = q then some c else fsGet s.fs r := rfl

lemma fsGet_putOuts (l c s q) :
    fsGet (putOuts l c s).fs q = if q ∈ l then some c else fsGet s.fs q := by
  induction l generalizing s with
  | nil => simp [putOuts]
  | cons p l ih =>
      simp only [putOuts, ih, fsGet_put, List.mem_cons]
      by_cases hql : q ∈ l
      · simp [hql]
      · by_cases hqp : q = p <;> simp [hql, hqp]

lemma fsGet_runCmd (c s q) :
    fsGet (runCmd c s).fs q =
      if q ∈ c.outs then
        some (Content.toolOut c.prog c.args (c.ins.map (fun p => fsGet s.fs p)))
      else fsGet s.fs q := by
  simp [runCmd, fsGet_putOuts]

/-! ## Generic interpreter invariants -/

@[simp] lemma resSt_ok (s) : resSt (.ok s) = s := rfl
@[simp] lemma resSt_error (e) : resSt (.error e) = e.1 := rfl

lemma good_wr {bad : List Path} {s : St} (p : Path) (c : Content)
    (hg : Good bad s) (hp : p ∈ bad) : Good bad (wr p c s) := by
  intro q c' hq hnq
  rw [fsGet_wr] at hq
  by_cases h : q = p
  · exact absurd (h ▸ hp) hnq
  · rw [if_neg h] at hq; exact hg q c' hq hnq

lemma good_putOuts {bad : List Path} {s : St} (l : List Path) {c : Content}
    (hg : Good bad s) (hc : isToolOut c = true) : Good bad (putOuts l c s) := by
  intro q c' hq hnb
  rw [fsGet_putOuts] at hq
  by_cases h : q ∈ l
  · rw [if_pos h] at hq; cases hq; exact hc
  · rw [if_neg h] at hq; exact hg q c' hq hnb

lemma good_recCmd {bad : List Path} {s : St} (c : Cmd) (hg : Good bad s) :
    Good bad (recCmd c s) := by
  intro q c' hq hnq
  exact hg q c' (by simpa using hq) hnq

lemma good_runCmd {bad : List Path} {s : St} (c : Cmd) (hg : Good bad s) :
    Good bad (runCmd c s) := by
  unfold runCmd
  exact good_putOuts _ (good_recCmd c hg) rfl

lemma good_docopy {bad : List Path} {s : St} {src dst : Path} {c : Content}
    (hg : Good bad s) (hsrc : src ∉ bad) (hfs : fsGet s.fs src = some c) :
    Good bad (docopy src dst c s) := by
  intro q c' hq hnq
  rw [fsGet_docopy] at hq
  by_cases h : q = dst
  · rw [if_pos h] at hq; cases hq; exact hg src _ hfs hsrc
  · rw [if_neg h] at hq; exact hg q c' hq hnq

/-- The central frame property: a run of a program whose `writeFileSync`
targets all lie in `bad` and whose `copyFileSync` sources all lie outside
`bad` keeps every file outside `bad` an external-tool output. -/
lemma interp_good (env : Env) (pr : Prog) (bad : List Path) :
    ∀ s : St, Good bad s → (∀ p ∈ pr.writtenPaths, p ∈ bad) →
      (∀ p ∈ pr.copySrcs, p ∉ bad) →
      Good bad (resSt (interp env pr s)) := by
  induction pr with
  | skip => intro s hg _ _; simpa [interp] using hg
  | write p c =>
      intro s hg hw _
      simpa [interp] using good_wr p c hg (hw p (by simp [Prog.writtenPaths]))
  | run c =>
      intro s hg _ _
      by_cases h : env c = true
      · simpa [interp, h] using good_runCmd c hg
      · simp only [interp, h, if_false, Bool.false_eq_true, resSt_error]
        exact good_recCmd c hg
  | copyFile src dst =>
      intro s hg _ hc
      rcases hfs : fsGet s.fs src with _ | c
      · simpa [interp, hfs] using hg
      · simpa [interp, hfs] using
          good_docopy hg (hc src (by simp [Prog.copySrcs])) hfs
  | seq a b iha ihb =>
      intro s hg hw hc
      have hwa : ∀ p ∈ a.writtenPaths, p ∈ bad := fun p hp =>
        hw p (by simp [Prog.writtenPaths, hp])
      have hwb : ∀ p ∈ b.writtenPaths, p ∈ bad := fun p hp =>
        hw p (by simp [Prog.writtenPaths, hp])
      have hca : ∀ p ∈ a.copySrcs, p ∉ bad := fun p hp =>
        hc p (by simp [Prog.copySrcs, hp])
      have hcb : ∀ p ∈ b.copySrcs, p ∉ bad := fun p hp =>
        hc p (by simp [Prog.copySrcs, hp])
      have ha := iha s hg hwa hca
      cases h : interp env a s with
      | ok s' =>
          rw [h] at ha
          simpa [interp, h] using ihb s' (by simpa using ha) hwb hcb
      | error e =>
          rw [h] at ha
          simpa [interp, h] using ha
  | tryCatch a b iha ihb =>
      intro s hg hw hc
      have hwa : ∀ p ∈ a.writtenPaths, p ∈ bad := fun p hp =>
        hw p (by simp [Prog.writtenPaths, hp])
      have hwb : ∀ p ∈ b.writtenPaths, p ∈ bad := fun p hp =>
        hw p (by simp [Prog.writtenPaths, hp])
      have hca : ∀ p ∈ a.copySrcs, p ∉ bad := fun p hp =>
        hc p (by simp [Prog.copySrcs, hp])
      have hcb : ∀ p ∈ b.copySrcs, p ∉ bad := fun p hp =>
        hc p (by simp [Prog.copySrcs, hp])
      have ha := iha s hg hwa hca
      cases h : interp env a s with
      | ok s' => rw [h] at ha; simpa [interp, h] using ha
      | error e =>
          rw [h] at ha
          simpa [interp, h] using ihb e.1 (by simpa using ha) hwb hcb

/-- The `writeFileSync` log only grows. -/
lemma interp_writes_mono (env : Env) (pr : Prog) :
    ∀ s : St, ∃ l, (resSt (interp env pr s)).writes = s.writes ++ l := by
  induction pr with
  | skip => intro s; exact ⟨[], by simp [interp]⟩
  | write p c => intro s; exact ⟨[(p, c)], by simp [interp]⟩
  | run c =>
      intro s
      by_cases h : env c = true
      · exact ⟨[], by simp [interp, h]⟩
      · exact ⟨[], by simp [interp, h]⟩
  | copyFile src dst =>
      intro s
      rcases hfs : fsGet s.fs src with _ | c
      · exact ⟨[], by simp [interp, hfs]⟩
      · exact ⟨[], by simp [interp, hfs]⟩
  | seq a b iha ihb =>
      intro s
      cases h : interp env a s with
      | ok s' =>
          obtain ⟨l1, h1⟩ := iha s
          obtain ⟨l2, h2⟩ := ihb s'
          rw [h, resSt_ok] at h1
          refine ⟨l1 ++ l2, ?_⟩
          have he : resSt (interp env (.seq a b) s) = resSt (interp env b s') := by
            simp [interp, h]
          rw [he, h2, h1, List.append_assoc]
      | error e =>
          obtain ⟨l1, h1⟩ := iha s
          rw [h] at h1
          refine ⟨l1, ?_⟩
          have he : resSt (interp env (.seq a b) s) = e.1 := by simp [interp, h]
          rw [he]; simpa using h1
  | tryCatch a b iha ihb =>
      intro s
      cases h : interp env a s with
      | ok s' =>
          obtain ⟨l1, h1⟩ := iha s
          rw [h] at h1
          refine ⟨l1, ?_⟩
          have he : resSt (interp env (.tryCatch a b) s) = s' := by simp [interp, h]
          rw [he]; simpa using h1
      | error e =>
          obtain ⟨l1, h1⟩ := iha s
          obtain ⟨l2, h2⟩ := ihb e.1
          rw [h, resSt_error] at h1
          refine ⟨l1 ++ l2, ?_⟩
          have he : resSt (interp env (.tryCatch a b) s) = resSt (interp env b e.1) := by
            simp [interp, h]
          rw [he, h2, h1, List.append_assoc]

/-- Every executed command is one of the commands occurring in the program. -/
lemma interp_cmds_sub (env : Env) (pr : Prog) :
    ∀ s : St, ∀ c ∈ (resSt (interp env pr s)).cmds, c ∈ s.cmds ∨ c ∈ pr.cmdList := by
  induction pr with
  | skip => intro s c hc; exact .inl (by simpa [interp] using hc)
  | write p cc => intro s c hc; exact .inl (by simpa [interp] using hc)
  | run cc =>
      intro s c hc
      by_cases h : env cc = true
      · simp only [interp, h, if_true, resSt_ok, runCmd_cmds, List.mem_append,
          List.mem_singleton] at hc
        rcases hc with hc | hc
        · exact .inl hc
        · exact .inr (by simp [Prog.cmdList, hc])
      · simp only [interp, h, Bool.false_eq_true, if_false, resSt_error, recCmd_cmds,
          List.mem_append, List.mem_singleton] at hc
        rcases hc with hc | hc
        · exact .inl hc
        · exact .inr (by simp [Prog.cmdList, hc])
  | copyFile src dst =>
      intro s c hc
      rcases hfs : fsGet s.fs src with _ | cc
      · exact .inl (by simpa [interp, hfs] using hc)
      · exact .inl (by simpa [interp, hfs] using hc)
  | seq a b iha ihb =>
      intro s c hc
      cases h : interp env a s with
      | ok s' =>
          rw [show (resSt (interp env (.seq a b) s)) = resSt (interp env b s') by
            simp [interp, h]] at hc
          rcases ihb s' c hc with hc' | hc'
          · rcases iha s c (by simpa [h] using hc') with h2 | h2
            · exact .inl h2
            · exact .inr (by simp [Prog.cmdList, h2])
          · exact .inr (by simp [Prog.cmdList, hc'])
      | error e =>
          rw [show (resSt (interp env (.seq a b) s)) = e.1 by simp [interp, h]] at hc
          rcases iha s c (by simpa [h] using hc) with h2 | h2
          · exact .inl h2
          · exact .inr (by simp [Prog.cmdList, h2])
  | tryCatch a b iha ihb =>
      intro s c hc
      cases h : interp env a s with
      | ok s' =>
          rw [show (resSt (interp env (.tryCatch a b) s)) = s' by simp [interp, h]] at hc
          rcases iha s c (by simpa [h] using hc) with h2 | h2
          · exact .inl h2
          · exact .inr (by simp [Prog.cmdList, h2])
      | error e =>
          rw [show (resSt (interp env (.tryCatch a b) s)) = resSt (interp env b e.1) by
            simp [interp, h]] at hc
          rcases ihb e.1 c hc with hc' | hc'
          · rcases iha s c (by simpa [h] using hc') with h2 | h2
            · exact .inl h2
            · exact .inr (by simp [Prog.cmdList, h2])
          · exact .inr (by simp [Prog.cmdList, hc'])

/-! ## Lemmas about the common handler tail -/

lemma finishJob_st (id msg : String) (r : Except (St × String) St) :
    (finishJob id msg r).st = cleanup id (resSt r) := by
  cases r with
  | error e => rfl
  | ok s =>
      rcases hc : fsGet s.fs (outPath id) with _ | c <;> simp [finishJob, hc]

lemma finishJob_status (id msg : String) (r : Except (St × String) St) :
    (finishJob id msg r).resp.status = 200 ∨ (finishJob id msg r).resp.status = 500 := by
  cases r with
  | error e => exact .inr rfl
  | ok s =>
      rcases hc : fsGet s.fs (outPath id) with _ | c
      · exact .inr (by simp [finishJob, hc])
      · exact .inl (by simp [finishJob, hc])

lemma finishJob_200 (id msg : String) (r : Except (St × String) St)
    (h : (finishJob id msg r).resp.status = 200) :
    ∃ s c, r = .ok s ∧ fsGet s.fs (outPath id) = some c ∧
      (finishJob id msg r).resp.body = .pdf c := by
  cases r with
  | error e => cases h
  | ok s =>
      rcases hc : fsGet s.fs (outPath id) with _ | c
      · simp [finishJob, hc] at h
      · exact ⟨s, c, rfl, hc, by simp [finishJob, hc]⟩

lemma finishJob_not400 (id msg : String) (r : Except (St × String) St) :
    (finishJob id msg r).resp.status ≠ 400 := by
  rcases finishJob_status id msg r with h | h <;> simp [h]

lemma finishJob_notin_dirs (id msg : String) (r : Except (St × String) St) :
    id ∉ (finishJob id msg r).st.dirs := by
  rw [finishJob_st]
  exact mem_cleanup_dirs id (resSt r)

/-! ## The claims -/

/-- C9: each merge handler creates the job directory before validating the
uploads; a request answered 400 leaves that directory on disk (`cleanupJob`
is not called), while both the success path and the outer catch remove it.
So after a request, the job directory still exists iff the response was 400. -/
theorem claim9_cleanup_asymmetric (env : Env) (id : String) (req : Request) :
    ((mergeA env id req).resp.status = 400 ↔ id ∈ (mergeA env id req).st.dirs) ∧
    ((mergeR env id req).resp.status = 400 ↔ id ∈ (mergeR env id req).st.dirs) := by
  constructor
  · rcases ht : req.template with _ | t
    · simp [mergeA, ht, mkdirJob, St.init]
    · rcases ha : req.artwork with _ | a
      · simp [mergeA, ht, ha, mkdirJob, St.init]
      · simp only [mergeA, ht, ha]
        exact iff_of_false (finishJob_not400 _ _ _) (finishJob_notin_dirs _ _ _)
  · rcases ht : req.template with _ | t
    · simp [mergeR, ht, mkdirJob, St.init]
    · rcases ha : req.artwork with _ | a
      · simp [mergeR, ht, ha, mkdirJob, St.init]
      · simp only [mergeR, ht, ha]
        exact iff_of_false (finishJob_not400 _ _ _) (finishJob_notin_dirs _ _ _)

/-- C4: a request missing the template or the artwork on the merge and
overlay endpoints, or missing the artwork on the create-layered endpoint,
is answered 400 with a JSON error and no external command is executed. -/
theorem claim4_upload_validation (env : Env) (id : String) (req : Request) :
    ((req.template = none ∨ req.artwork = none) →
        rejected400 (mergeA env id req) ∧ rejected400 (mergeR env id req) ∧
        rejected400 (mergeU env id req) ∧ rejected400 (overlayArtworkA env id req) ∧
        rejected400 (overlayArtworkR env id req) ∧ rejected400 (overlayArtworkU env id req)) ∧
    (req.artwork = none →
        rejected400 (createLayeredA env id req) ∧ rejected400 (createLayeredR env id req) ∧
        rejected400 (createLayeredU env id req)) := by
  constructor
  · intro hmiss
    rcases ht : req.template with _ | t <;> rcases ha : req.artwork with _ | a
    · refine ⟨?_, ?_, ?_, ?_, ?_, ?_⟩ <;>
        simp [mergeA, mergeR, mergeU, overlayArtworkA, overlayArtworkR, overlayArtworkU,
          ht, ha, rejected400, Body.isJsonB, mkdirJob, St.init]
    · refine ⟨?_, ?_, ?_, ?_, ?_, ?_⟩ <;>
        simp [mergeA, mergeR, mergeU, overlayArtworkA, overlayArtworkR, overlayArtworkU,
          ht, ha, rejected400, Body.isJsonB, mkdirJob, St.init]
    · refine ⟨?_, ?_, ?_, ?_, ?_, ?_⟩ <;>
        simp [mergeA, mergeR, mergeU, overlayArtworkA, overlayArtworkR, overlayArtworkU,
          ht, ha, rejected400, Body.isJsonB, mkdirJob, St.init]
    · rw [ht, ha] at hmiss
      rcases hmiss with h | h <;> cases h
  · intro hart
    refine ⟨?_, ?_, ?_⟩ <;>
      simp [createLayeredA, createLayeredR, createLayeredU, hart, rejected400,
        Body.isJsonB, mkdirJob, St.init]

/-- Witness for C4 at a concrete empty request. -/
theorem claim4_upload_validation_witness :
    rejected400 (mergeA envAll "w4" reqEmpty) ∧ rejected400 (createLayeredA envAll "w4" reqEmpty) := by
  have h := claim4_upload_validation envAll "w4" reqEmpty
  exact ⟨(h.1 (Or.inl rfl)).1, (h.2 rfl).1⟩

/-- C5: numeric form fields are never a reason to reject a request: each
parameter resolves to `parseFloat` of the supplied field or to the
default of the endpoint (`numParam`), and a 400 happens exactly when an upload is
missing, regardless of the numeric fields. -/
theorem claim5_numeric_params :
    (∀ (f : Option String) (d : JsNum),
        numParam f d = d ∨ ∃ s, f = some s ∧ parseFloat s = some (numParam f d)) ∧
    (∀ (env : Env) (id : String) (req : Request),
        ((mergeA env id req).resp.status = 400 ↔ (req.template = none ∨ req.artwork = none)) ∧
        ((overlayArtworkA env id req).resp.status = 400 ↔ (req.template = none ∨ req.artwork = none)) ∧
        ((mergeR env id req).resp.status = 400 ↔ (req.template = none ∨ req.artwork = none))) := by
  constructor
  · intro f d
    rcases f with _ | s
    · exact .inl rfl
    · rcases hp : parseFloat s with _ | q
      · exact .inl (by simp [numParam, hp])
      · by_cases hz : q.num = 0
        · exact .inl (by simp [numParam, hp, hz])
        · exact .inr ⟨s, rfl, by simp [numParam, hp, hz]⟩
  · intro env id req
    refine ⟨?_, ?_, ?_⟩
    · rcases ht : req.template with _ | t <;> rcases ha : req.artwork with _ | a
      · simp [mergeA, ht, ha]
      · simp [mergeA, ht, ha]
      · simp [mergeA, ht, ha]
      · simp only [mergeA, ht, ha]
        exact iff_of_false (finishJob_not400 _ _ _) (by simp)
    · rcases ht : req.template with _ | t <;> rcases ha : req.artwork with _ | a
      · simp [overlayArtworkA, ht, ha]
      · simp [overlayArtworkA, ht, ha]
      · simp [overlayArtworkA, ht, ha]
      · simp only [overlayArtworkA, ht, ha]
        exact iff_of_false (finishJob_not400 _ _ _) (by simp)
    · rcases ht : req.template with _ | t <;> rcases ha : req.artwork with _ | a
      · simp [mergeR, ht, ha]
      · simp [mergeR, ht, ha]
      · simp [mergeR, ht, ha]
      · simp only [mergeR, ht, ha]
        exact iff_of_false (finishJob_not400 _ _ _) (by simp)

/-- C1 (the code violates the claim): on /api/overlay-artwork the artwork
never contributes to the output.  With every tool succeeding, the handler
executes exactly one Ghostscript command, which reads only `template.pdf`
(the generated `overlay.ps` is never passed to it), and two requests that
differ only in the artwork bytes receive identical responses. -/
theorem claim1_overlay_ignores_artwork :
    (overlayArtworkA envAll "job" reqSample).resp.status = 200 ∧
    (overlayArtworkA envAll "job" reqSample).st.cmds = [cOverlayGs "job"] ∧
    (overlayArtworkA envAll "job" reqSample).resp = (overlayArtworkA envAll "job" reqSample2).resp :=
  ⟨rfl, rfl, rfl⟩

/-- C3 counterexample: on the same valid request, with every external tool
succeeding, the three /api/merge-pdf-layers handlers execute different
command sequences (already the sequences of binaries differ). -/
theorem claim3_counterexample :
    ((mergeA envAll "cx" reqSample).st.cmds.map Cmd.prog = ["convert", "gs"]) ∧
    ((mergeR envAll "cx" reqSample).st.cmds.map Cmd.prog = ["convert", "gs", "qpdf"]) ∧
    ((mergeU envAll "cx" reqSample).st.cmds.map Cmd.prog = ["convert", "pdftk"]) ∧
    (((mergeA envAll "cx" reqSample).st.cmds.map Cmd.prog ==
      (mergeR envAll "cx" reqSample).st.cmds.map Cmd.prog) = false) ∧
    (((mergeR envAll "cx" reqSample).st.cmds.map Cmd.prog ==
      (mergeU envAll "cx" reqSample).st.cmds.map Cmd.prog) = false) ∧
    (((mergeA envAll "cx" reqSample).st.cmds.map Cmd.prog ==
      (mergeU envAll "cx" reqSample).st.cmds.map Cmd.prog) = false) := by
  refine ⟨by decide, by decide, by decide, by decide, by decide, by decide⟩

/-- C3 amended: the /api/overlay-artwork and /api/create-layered-pdf
handlers are identical across the three files (same commands, same state,
same response on every request), while the /api/merge-pdf-layers handlers
differ (see the counterexample). -/
theorem claim3_amended (env : Env) (id : String) (req : Request) :
    overlayArtworkA env id req = overlayArtworkR env id req ∧
    overlayArtworkR env id req = overlayArtworkU env id req ∧
    createLayeredA env id req = createLayeredR env id req ∧
    createLayeredR env id req = createLayeredU env id req :=
  ⟨rfl, rfl, rfl, rfl⟩

/-- C8: in src/server.js, `layerName` influences nothing: two
/api/merge-pdf-layers requests identical up to `layerName` produce the same
commands, file system, logs and response (the PostScript layer script built
from it is dead code). -/
theorem claim8_layerName_noninterference (env : Env) (id : String) (req : Request)
    (a b : Option String) :
    mergeA env id { req with layerName := a } = mergeA env id { req with layerName := b } := by
  cases req
  rfl

/-- C10: on /api/merge-pdf-layers (src/server.js and the railway copy),
supplying `width=\x220\x22` or `height=\x220\x22` is indistinguishable from
omitting the field: `parseFloat(v) || default` turns the falsy 0 into the
defaults 612 and 792. -/
theorem claim10_zero_is_default (env : Env) (id : String) (req : Request) :
    (mergeA env id { req with width := some "0" } = mergeA env id { req with width := none }) ∧
    (mergeA env id { req with height := some "0" } = mergeA env id { req with height := none }) ∧
    (mergeR env id { req with width := some "0" } = mergeR env id { req with width := none }) ∧
    (mergeR env id { req with height := some "0" } = mergeR env id { req with height := none }) := by
  cases req
  exact ⟨rfl, rfl, rfl, rfl⟩

lemma all_cmdOk_finishJob (env : Env) (id msg : String) (pr : Prog)
    (hpr : pr.cmdList.all cmdOk = true) :
    (finishJob id msg (interp env pr (mkdirJob id St.init))).st.cmds.all cmdOk = true := by
  rw [List.all_eq_true]
  intro c hc
  rw [finishJob_st, cleanup_cmds] at hc
  rcases interp_cmds_sub env pr _ c hc with h | h
  · simp [mkdirJob, St.init] at h
  · exact List.all_eq_true.mp hpr c h

/-- C7: every external command any handler ever executes invokes one of the
four binaries gs, convert, qpdf or pdftk. -/
theorem claim7_only_four_binaries (env : Env) (id : String) (req : Request) :
    (mergeA env id req).st.cmds.all cmdOk = true ∧
    (mergeR env id req).st.cmds.all cmdOk = true ∧
    (mergeU env id req).st.cmds.all cmdOk = true ∧
    (overlayArtworkA env id req).st.cmds.all cmdOk = true ∧
    (overlayArtworkR env id req).st.cmds.all cmdOk = true ∧
    (overlayArtworkU env id req).st.cmds.all cmdOk = true ∧
    (createLayeredA env id req).st.cmds.all cmdOk = true ∧
    (createLayeredR env id req).st.cmds.all cmdOk = true ∧
    (createLayeredU env id req).st.cmds.all cmdOk = true ∧
    (gsVersionHandler env).st.cmds.all cmdOk = true ∧
    healthHandler.st.cmds.all cmdOk = true := by
  refine ⟨?_, ?_, ?_, ?_, ?_, ?_, ?_, ?_, ?_, ?_, ?_⟩
  · rcases ht : req.template with _ | t <;> rcases ha : req.artwork with _ | a <;>
      simp only [mergeA, ht, ha]
    · simp [mkdirJob, St.init]
    · simp [mkdirJob, St.init]
    · simp [mkdirJob, St.init]
    · exact all_cmdOk_finishJob _ _ _ _
        (by simp [mergeAProg, Prog.cmdList, cmdOk, cConvA, cMergeA, cSimpleA])
  · rcases ht : req.template with _ | t <;> rcases ha : req.artwork with _ | a <;>
      simp only [mergeR, ht, ha]
    · simp [mkdirJob, St.init]
    · simp [mkdirJob, St.init]
    · simp [mkdirJob, St.init]
    · exact all_cmdOk_finishJob _ _ _ _
        (by simp [mergeRProg, step2RProg, cascadeRProg, Prog.cmdList, cmdOk,
          cR1, cR2, cR3, cQpdfUnder, cPdftkBg, cImR1, cImR2, cComposite, cImR4])
  · rcases ht : req.template with _ | t <;> rcases ha : req.artwork with _ | a <;>
      simp only [mergeU, ht, ha]
    · simp [mkdirJob, St.init]
    · simp [mkdirJob, St.init]
    · simp [mkdirJob, St.init]
    · exact all_cmdOk_finishJob _ _ _ _
        (by simp [mergeUProg, step2UProg, cascadeUProg, Prog.cmdList, cmdOk,
          cU1, cU2, cPdftkBg, cQpdfUnder, cGsU1, cGsU2, cUF1, cUF2, cComposite, cUF4])
  · rcases ht : req.template with _ | t <;> rcases ha : req.artwork with _ | a <;>
      simp only [overlayArtworkA, ht, ha]
    · simp [mkdirJob, St.init]
    · simp [mkdirJob, St.init]
    · simp [mkdirJob, St.init]
    · exact all_cmdOk_finishJob _ _ _ _
        (by simp [overlayProg, Prog.cmdList, cmdOk, cOverlayGs])
  · rcases ht : req.template with _ | t <;> rcases ha : req.artwork with _ | a <;>
      simp only [overlayArtworkR, ht, ha]
    · simp [mkdirJob, St.init]
    · simp [mkdirJob, St.init]
    · simp [mkdirJob, St.init]
    · exact all_cmdOk_finishJob _ _ _ _
        (by simp [overlayProg, Prog.cmdList, cmdOk, cOverlayGs])
  · rcases ht : req.template with _ | t <;> rcases ha : req.artwork with _ | a <;>
      simp only [overlayArtworkU, ht, ha]
    · simp [mkdirJob, St.init]
    · simp [mkdirJob, St.init]
    · simp [mkdirJob, St.init]
    · exact all_cmdOk_finishJob _ _ _ _
        (by simp [overlayProg, Prog.cmdList, cmdOk, cOverlayGs])
  · rcases ha : req.artwork with _ | a <;> simp only [createLayeredA, ha]
    · simp [mkdirJob, St.init]
    · refine all_cmdOk_finishJob _ _ _ _ ?_
      rcases req.template with _ | t <;>
        simp [createProg, Prog.cmdList, cmdOk, cLayeredGs]
  · rcases ha : req.artwork with _ | a <;> simp only [createLayeredR, ha]
    · simp [mkdirJob, St.init]
    · refine all_cmdOk_finishJob _ _ _ _ ?_
      rcases req.template with _ | t <;>
        simp [createProg, Prog.cmdList, cmdOk, cLayeredGs]
  · rcases ha : req.artwork with _ | a <;> simp only [createLayeredU, ha]
    · simp [mkdirJob, St.init]
    · refine all_cmdOk_finishJob _ _ _ _ ?_
      rcases req.template with _ | t <;>
        simp [createProg, Prog.cmdList, cmdOk, cLayeredGs]
  · by_cases h : env cGsVersion = true <;> simp [gsVersionHandler, interp, h] <;> decide
  · simp [healthHandler, St.init]

lemma ne_pdftk_qpdf (id : String) : cPdftkBg id ≠ cQpdfUnder id := by
  simp [cPdftkBg, cQpdfUnder]

lemma ne_im1_qpdf (id : String) : cImR1 id ≠ cQpdfUnder id := by
  simp [cImR1, cQpdfUnder]

lemma ne_im1_pdftk (id : String) : cImR1 id ≠ cPdftkBg id := by
  simp [cImR1, cPdftkBg]

lemma fsGet_imR1_apdf (id : String) (s : St) :
    fsGet (runCmd (cImR1 id) s).fs (apdfPath id) = fsGet s.fs (apdfPath id) := by
  simp [fsGet_runCmd, cImR1, apdfPath, tFlatPath]

lemma fsGet_imR2_apdf (id : String) (s : St) :
    fsGet (runCmd (cImR2 id) s).fs (apdfPath id) = fsGet s.fs (apdfPath id) := by
  simp [fsGet_runCmd, cImR2, apdfPath, aFlatPath]

lemma fsGet_comp_apdf (id : String) (s : St) :
    fsGet (runCmd (cComposite id) s).fs (apdfPath id) = fsGet s.fs (apdfPath id) := by
  simp [fsGet_runCmd, cComposite, apdfPath, compPath]

/-- C2: the railway /api/merge-pdf-layers fallback cascade, started in any
state holding the converted artwork PDF.  qpdf always runs; pdftk runs iff
qpdf failed; the ImageMagick strategy runs iff qpdf and pdftk both failed;
the artwork PDF is copied to the output iff all three strategies raised an
error; and a successful qpdf is the whole cascade. -/
theorem claim2_cascade (env : Env) (id : String) (pW pH : JsNum) (s : St) (ca : Content)
    (hart : fsGet s.fs (apdfPath id) = some ca) :
    ((cascadeRun env id pW pH s).cmds.drop s.cmds.length = [cQpdfUnder id] ↔
        env (cQpdfUnder id) = true) ∧
    (cPdftkBg id ∈ (cascadeRun env id pW pH s).cmds.drop s.cmds.length ↔
        env (cQpdfUnder id) = false) ∧
    (cImR1 id ∈ (cascadeRun env id pW pH s).cmds.drop s.cmds.length ↔
        (env (cQpdfUnder id) = false ∧ env (cPdftkBg id) = false)) ∧
    ((cascadeRun env id pW pH s).copies = s.copies ++ [(apdfPath id, outPath id)] ↔
        (env (cQpdfUnder id) = false ∧ env (cPdftkBg id) = false ∧
         (env (cImR1 id) && env (cImR2 id) && env (cComposite id) &&
            env (cImR4 id pW pH)) = false)) ∧
    cQpdfUnder id ∈ (cascadeRun env id pW pH s).cmds := by
  by_cases hq : env (cQpdfUnder id) = true
  · have hrun : cascadeRun env id pW pH s = runCmd (cQpdfUnder id) s := by
      simp [cascadeRun, cascadeRProg, interp, hq]
    rw [hrun]
    refine ⟨?_, ?_, ?_, ?_, ?_⟩ <;>
      simp [hq, List.drop_left, ne_pdftk_qpdf, ne_im1_qpdf]
  · rw [Bool.not_eq_true] at hq
    by_cases hp : env (cPdftkBg id) = true
    · have hrun : cascadeRun env id pW pH s =
          runCmd (cPdftkBg id) (recCmd (cQpdfUnder id) s) := by
        simp [cascadeRun, cascadeRProg, interp, hq, hp]
      rw [hrun]
      refine ⟨?_, ?_, ?_, ?_, ?_⟩ <;>
        simp [hq, hp, List.drop_left, ne_im1_qpdf, ne_im1_pdftk]
    · rw [Bool.not_eq_true] at hp
      by_cases h1 : env (cImR1 id) = true
      · by_cases h2 : env (cImR2 id) = true
        · by_cases h3 : env (cComposite id) = true
          · by_cases h4 : env (cImR4 id pW pH) = true
            · have hrun : cascadeRun env id pW pH s =
                  runCmd (cImR4 id pW pH) (runCmd (cComposite id) (runCmd (cImR2 id)
                    (runCmd (cImR1 id) (recCmd (cPdftkBg id) (recCmd (cQpdfUnder id) s))))) := by
                simp [cascadeRun, cascadeRProg, interp, hq, hp, h1, h2, h3, h4]
              rw [hrun]
              refine ⟨?_, ?_, ?_, ?_, ?_⟩ <;>
                simp [hq, hp, h1, h2, h3, h4, List.drop_left]
            · rw [Bool.not_eq_true] at h4
              have hrun : cascadeRun env id pW pH s =
                  docopy (apdfPath id) (outPath id) ca
                    (recCmd (cImR4 id pW pH) (runCmd (cComposite id) (runCmd (cImR2 id)
                      (runCmd (cImR1 id) (recCmd (cPdftkBg id) (recCmd (cQpdfUnder id) s)))))) := by
                simp [cascadeRun, cascadeRProg, interp, hq, hp, h1, h2, h3, h4,
                  fsGet_imR1_apdf, fsGet_imR2_apdf, fsGet_comp_apdf, hart]
              rw [hrun]
              refine ⟨?_, ?_, ?_, ?_, ?_⟩ <;>
                simp [hq, hp, h1, h2, h3, h4, List.drop_left]
          · rw [Bool.not_eq_true] at h3
            have hrun : cascadeRun env id pW pH s =
                docopy (apdfPath id) (outPath id) ca
                  (recCmd (cComposite id) (runCmd (cImR2 id)
                    (runCmd (cImR1 id) (recCmd (cPdftkBg id) (recCmd (cQpdfUnder id) s))))) := by
              simp [cascadeRun, cascadeRProg, interp, hq, hp, h1, h2, h3,
                fsGet_imR1_apdf, fsGet_imR2_apdf, hart]
            rw [hrun]
            refine ⟨?_, ?_, ?_, ?_, ?_⟩ <;>
              simp [hq, hp, h1, h2, h3, List.drop_left]
        · rw [Bool.not_eq_true] at h2
          have hrun : cascadeRun env id pW pH s =
              docopy (apdfPath id) (outPath id) ca
                (recCmd (cImR2 id)
                  (runCmd (cImR1 id) (recCmd (cPdftkBg id) (recCmd (cQpdfUnder id) s)))) := by
            simp [cascadeRun, cascadeRProg, interp, hq, hp, h1, h2, fsGet_imR1_apdf, hart]
          rw [hrun]
          refine ⟨?_, ?_, ?_, ?_, ?_⟩ <;>
            simp [hq, hp, h1, h2, List.drop_left]
      · rw [Bool.not_eq_true] at h1
        have hrun : cascadeRun env id pW pH s =
            docopy (apdfPath id) (outPath id) ca
              (recCmd (cImR1 id) (recCmd (cPdftkBg id) (recCmd (cQpdfUnder id) s))) := by
          simp [cascadeRun, cascadeRProg, interp, hq, hp, h1, hart]
        rw [hrun]
        refine ⟨?_, ?_, ?_, ?_, ?_⟩ <;>
          simp [hq, hp, h1, List.drop_left]

/-- Witness for C2: in an environment where every tool fails, starting from
a state holding the artwork PDF, the last resort of the cascade copies it to the
output. -/
theorem claim2_cascade_witness :
    (cascadeRun envNone "w" 612 792 stW).copies = stW.copies ++ [(apdfPath "w", outPath "w")] := by
  have h := claim2_cascade envNone "w" 612 792 stW (Content.script "x") rfl
  exact h.2.2.2.1.mpr ⟨rfl, rfl, rfl⟩

/-! ## Lemmas towards C6 (no in-process document manipulation) -/

lemma good_init (bad : List Path) (id : String) : Good bad (mkdirJob id St.init) := by
  intro p c hp
  simp [mkdirJob, St.init, fsGet] at hp

lemma goodT_wr {tr : List Path} {s : St} (p : Path) (c : Content)
    (hg : GoodT tr s) (hp : p ∉ tr) : GoodT tr (wr p c s) := by
  intro q hq c' hc
  rw [fsGet_wr] at hc
  by_cases h : q = p
  · exact absurd (h ▸ hq) hp
  · rw [if_neg h] at hc; exact hg q hq c' hc

lemma goodT_putOuts {tr : List Path} {s : St} (l : List Path) {c : Content}
    (hg : GoodT tr s) (hc : isToolOut c = true) : GoodT tr (putOuts l c s) := by
  intro q hq c' hq'
  rw [fsGet_putOuts] at hq'
  by_cases h : q ∈ l
  · rw [if_pos h] at hq'; cases hq'; exact hc
  · rw [if_neg h] at hq'; exact hg q hq c' hq'

lemma goodT_recCmd {tr : List Path} {s : St} (c : Cmd) (hg : GoodT tr s) :
    GoodT tr (recCmd c s) := by
  intro q hq c' hc
  exact hg q hq c' (by simpa using hc)

lemma goodT_runCmd {tr : List Path} {s : St} (c : Cmd) (hg : GoodT tr s) :
    GoodT tr (runCmd c s) := by
  unfold runCmd
  exact goodT_putOuts _ (goodT_recCmd c hg) rfl

lemma goodT_docopy {tr : List Path} {s : St} {src dst : Path} {c : Content}
    (hg : GoodT tr s) (hsrc : src ∈ tr) (hfs : fsGet s.fs src = some c) :
    GoodT tr (docopy src dst c s) := by
  intro q hq c' hc
  rw [fsGet_docopy] at hc
  by_cases h : q = dst
  · rw [if_pos h] at hc; cases hc; exact hg src hsrc _ hfs
  · rw [if_neg h] at hc; exact hg q hq c' hc

/-- Variant frame property tracking a set of paths: if a program never
`writeFileSync`s a tracked path and only copies *from* tracked paths, the
tracked paths keep holding only external-tool outputs. -/
lemma interp_goodT (env : Env) (pr : Prog) (tr : List Path) :
    ∀ s : St, GoodT tr s → (∀ p ∈ pr.writtenPaths, p ∉ tr) →
      (∀ p ∈ pr.copySrcs, p ∈ tr) →
      GoodT tr (resSt (interp env pr s)) := by
  induction pr with
  | skip => intro s hg _ _; simpa [interp] using hg
  | write p c =>
      intro s hg hw _
      simpa [interp] using goodT_wr p c hg (hw p (by simp [Prog.writtenPaths]))
  | run c =>
      intro s hg _ _
      by_cases h : env c = true
      · simpa [interp, h] using goodT_runCmd c hg
      · simp only [interp, h, Bool.false_eq_true, if_false, resSt_error]
        exact goodT_recCmd c hg
  | copyFile src dst =>
      intro s hg _ hc
      rcases hfs : fsGet s.fs src with _ | c
      · simpa [interp, hfs] using hg
      · simpa [interp, hfs] using
          goodT_docopy hg (hc src (by simp [Prog.copySrcs])) hfs
  | seq a b iha ihb =>
      intro s hg hw hc
      have hwa : ∀ p ∈ a.writtenPaths, p ∉ tr := fun p hp =>
        hw p (by simp [Prog.writtenPaths, hp])
      have hwb : ∀ p ∈ b.writtenPaths, p ∉ tr := fun p hp =>
        hw p (by simp [Prog.writtenPaths, hp])
      have hca : ∀ p ∈ a.copySrcs, p ∈ tr := fun p hp =>
        hc p (by simp [Prog.copySrcs, hp])
      have hcb : ∀ p ∈ b.copySrcs, p ∈ tr := fun p hp =>
        hc p (by simp [Prog.copySrcs, hp])
      have ha := iha s hg hwa hca
      cases h : interp env a s with
      | ok s' =>
          rw [h] at ha
          simpa [interp, h] using ihb s' (by simpa using ha) hwb hcb
      | error e =>
          rw [h] at ha
          simpa [interp, h] using ha
  | tryCatch a b iha ihb =>
      intro s hg hw hc
      have hwa : ∀ p ∈ a.writtenPaths, p ∉ tr := fun p hp =>
        hw p (by simp [Prog.writtenPaths, hp])
      have hwb : ∀ p ∈ b.writtenPaths, p ∉ tr := fun p hp =>
        hw p (by simp [Prog.writtenPaths, hp])
      have hca : ∀ p ∈ a.copySrcs, p ∈ tr := fun p hp =>
        hc p (by simp [Prog.copySrcs, hp])
      have hcb : ∀ p ∈ b.copySrcs, p ∈ tr := fun p hp =>
        hc p (by simp [Prog.copySrcs, hp])
      have ha := iha s hg hwa hca
      cases h : interp env a s with
      | ok s' => rw [h] at ha; simpa [interp, h] using ha
      | error e =>
          rw [h] at ha
          simpa [interp, h] using ihb e.1 (by simpa using ha) hwb hcb

/-- If the final content of `output.pdf` can only be a tool output, a 200
response carries a tool-produced PDF. -/
lemma finishJob_toolPdf (id msg : String) (r : Except (St × String) St)
    (hg : ∀ c, fsGet (resSt r).fs (outPath id) = some c → isToolOut c = true)
    (h200 : (finishJob id msg r).resp.status = 200) :
    respIsToolPdf (finishJob id msg r) := by
  obtain ⟨s, c, hr, hfs, hbody⟩ := finishJob_200 id msg r h200
  exact ⟨c, hbody, hg c (by rw [hr, resSt_ok]; exact hfs)⟩

lemma getExtension_cases (m : String) :
    getExtension m = ".png" ∨ getExtension m = ".jpg" ∨ getExtension m = ".gif" ∨
    getExtension m = ".webp" ∨ getExtension m = ".pdf" ∨ getExtension m = ".bin" := by
  unfold getExtension
  split_ifs <;> simp

lemma out_ne_aPath (id m : String) : outPath id ≠ aPathOf id m := by
  rcases getExtension_cases m with h | h | h | h | h | h <;> simp [outPath, aPathOf, h]

lemma out_ne_tPath (id : String) : outPath id ≠ tPathOf id := by
  simp [outPath, tPathOf]

lemma out_notin_badA (id m : String) : outPath id ∉ [tPathOf id, aPathOf id m] := by
  simp only [List.mem_cons, List.mem_singleton, List.not_mem_nil, or_false, not_or]
  exact ⟨out_ne_tPath id, out_ne_aPath id m⟩

/-- The first two writes of a handler body land in the write log, whatever
happens afterwards. -/
lemma writes_first_two (env : Env) (id msg : String) (p1 p2 : Path) (c1 c2 : Content)
    (rest : Prog) :
    (p1, c1) ∈ (finishJob id msg (interp env (.seq (.write p1 c1) (.seq (.write p2 c2) rest))
        (mkdirJob id St.init))).st.writes ∧
    (p2, c2) ∈ (finishJob id msg (interp env (.seq (.write p1 c1) (.seq (.write p2 c2) rest))
        (mkdirJob id St.init))).st.writes := by
  have heq : interp env (.seq (.write p1 c1) (.seq (.write p2 c2) rest)) (mkdirJob id St.init)
      = interp env rest (wr p2 c2 (wr p1 c1 (mkdirJob id St.init))) := by
    simp [interp]
  obtain ⟨l, hl⟩ := interp_writes_mono env rest (wr p2 c2 (wr p1 c1 (mkdirJob id St.init)))
  rw [finishJob_st, cleanup_writes, heq, hl]
  constructor <;> simp [mkdirJob, St.init]

/-- Unfolding of a handler body that starts with its two upload writes. -/
lemma interp_seq2 (env : Env) (p1 p2 : Path) (c1 c2 : Content) (pa pb : Prog) (s : St) :
    interp env (.seq (.write p1 c1) (.seq (.write p2 c2) (.seq pa pb))) s
      = match interp env pa (wr p2 c2 (wr p1 c1 s)) with
        | .ok s' => interp env pb s'
        | .error e => .error e := by
  simp [interp]

lemma step2R_out (env : Env) (id m : String) (pW pH : JsNum) (s : St) :
    fsGet (resSt (interp env (step2RProg id m pW pH) s)).fs (outPath id)
      = fsGet s.fs (outPath id) := by
  by_cases e1 : env (cR1 id m) = true
  · by_cases e2 : env (cR2 id pW pH) = true
    · simp [step2RProg, interp, e1, e2]
      try simp [fsGet_runCmd, cR1, cR2, outPath, apdfPath, rawPath]
    · by_cases e3 : env (cR3 id m pW pH) = true <;>
        · simp [step2RProg, interp, e1, e2, e3]
          try simp [fsGet_runCmd, cR1, cR2, cR3, outPath, apdfPath, rawPath]
  · by_cases e3 : env (cR3 id m pW pH) = true <;>
      · simp [step2RProg, interp, e1, e3]
        try simp [fsGet_runCmd, cR1, cR3, outPath, apdfPath, rawPath]

lemma step2R_apdf (env : Env) (id m : String) (pW pH : JsNum) (s s2 : St)
    (hok : interp env (step2RProg id m pW pH) s = .ok s2) :
    ∀ c, fsGet s2.fs (apdfPath id) = some c → isToolOut c = true := by
  intro c hc
  by_cases e1 : env (cR1 id m) = true
  · by_cases e2 : env (cR2 id pW pH) = true
    · simp [step2RProg, interp, e1, e2] at hok
      subst hok
      simp [fsGet_runCmd, cR2, apdfPath] at hc
      subst hc; rfl
    · by_cases e3 : env (cR3 id m pW pH) = true
      · simp [step2RProg, interp, e1, e2, e3] at hok
        subst hok
        simp [fsGet_runCmd, cR3, apdfPath] at hc
        subst hc; rfl
      · simp [step2RProg, interp, e1, e2, e3] at hok
  · by_cases e3 : env (cR3 id m pW pH) = true
    · simp [step2RProg, interp, e1, e3] at hok
      subst hok
      simp [fsGet_runCmd, cR3, apdfPath] at hc
      subst hc; rfl
    · simp [step2RProg, interp, e1, e3] at hok

lemma step2U_out (env : Env) (id m : String) (pW pH : JsNum) (s : St) :
    fsGet (resSt (interp env (step2UProg id m pW pH) s)).fs (outPath id)
      = fsGet s.fs (outPath id) := by
  by_cases e1 : env (cU1 id m pW pH) = true
  · simp [step2UProg, interp, e1]
    try simp [fsGet_runCmd, cU1, outPath, apdfPath]
  · by_cases e2 : env (cU2 id) = true <;>
      · simp [step2UProg, interp, e1, e2]
        try simp [fsGet_runCmd, cU1, cU2, outPath, apdfPath, imagePsPath]

lemma step2U_apdf (env : Env) (id m : String) (pW pH : JsNum) (s s2 : St)
    (hok : interp env (step2UProg id m pW pH) s = .ok s2) :
    ∀ c, fsGet s2.fs (apdfPath id) = some c → isToolOut c = true := by
  intro c hc
  by_cases e1 : env (cU1 id m pW pH) = true
  · simp [step2UProg, interp, e1] at hok
    subst hok
    simp [fsGet_runCmd, cU1, apdfPath] at hc
    subst hc; rfl
  · by_cases e2 : env (cU2 id) = true
    · simp [step2UProg, interp, e1, e2] at hok
      subst hok
      simp [fsGet_runCmd, cU2, apdfPath] at hc
      subst hc; rfl
    · simp [step2UProg, interp, e1, e2] at hok

lemma mergeR_out_tool (env : Env) (id : String) (t a : UploadFile) (pW pH : JsNum) :
    ∀ c, fsGet (resSt (interp env (mergeRProg id t a pW pH) (mkdirJob id St.init))).fs
        (outPath id) = some c → isToolOut c = true := by
  intro c hc
  rw [show mergeRProg id t a pW pH = .seq (.write (tPathOf id) (.upload t.bytes))
      (.seq (.write (aPathOf id a.mimetype) (.upload a.bytes))
      (.seq (step2RProg id a.mimetype pW pH) (cascadeRProg id pW pH))) from rfl,
    interp_seq2] at hc
  set sW : St := wr (aPathOf id a.mimetype) (Content.upload a.bytes)
      (wr (tPathOf id) (Content.upload t.bytes) (mkdirJob id St.init)) with hsW
  have houtW : fsGet sW.fs (outPath id) = none := by
    rw [hsW]
    simp [fsGet_wr, out_ne_aPath id a.mimetype, out_ne_tPath id, mkdirJob, St.init, fsGet]
  cases hstep : interp env (step2RProg id a.mimetype pW pH) sW with
  | ok s2 =>
      rw [hstep] at hc
      have hs2out : fsGet s2.fs (outPath id) = none := by
        have h := step2R_out env id a.mimetype pW pH sW
        rw [hstep, resSt_ok] at h
        rw [h, houtW]
      have hgt : GoodT [apdfPath id, outPath id] s2 := by
        intro p hp cc hcc
        rcases (by simpa using hp : p = apdfPath id ∨ p = outPath id) with rfl | rfl
        · exact step2R_apdf env id a.mimetype pW pH sW s2 hstep cc hcc
        · rw [hs2out] at hcc; cases hcc
      have hfinal := interp_goodT env (cascadeRProg id pW pH) [apdfPath id, outPath id] s2 hgt
          (by simp [cascadeRProg, Prog.writtenPaths])
          (by simp [cascadeRProg, Prog.copySrcs])
      exact hfinal (outPath id) (by simp) c hc
  | error e =>
      rw [hstep] at hc
      have h := step2R_out env id a.mimetype pW pH sW
      rw [hstep, resSt_error] at h
      rw [resSt_error, h, houtW] at hc
      cases hc

lemma mergeU_out_tool (env : Env) (id : String) (t a : UploadFile) (pW pH : JsNum) :
    ∀ c, fsGet (resSt (interp env (mergeUProg id t a pW pH) (mkdirJob id St.init))).fs
        (outPath id) = some c → isToolOut c = true := by
  intro c hc
  rw [show mergeUProg id t a pW pH = .seq (.write (tPathOf id) (.upload t.bytes))
      (.seq (.write (aPathOf id a.mimetype) (.upload a.bytes))
      (.seq (step2UProg id a.mimetype pW pH) (cascadeUProg id pW pH))) from rfl,
    interp_seq2] at hc
  set sW : St := wr (aPathOf id a.mimetype) (Content.upload a.bytes)
      (wr (tPathOf id) (Content.upload t.bytes) (mkdirJob id St.init)) with hsW
  have houtW : fsGet sW.fs (outPath id) = none := by
    rw [hsW]
    simp [fsGet_wr, out_ne_aPath id a.mimetype, out_ne_tPath id, mkdirJob, St.init, fsGet]
  cases hstep : interp env (step2UProg id a.mimetype pW pH) sW with
  | ok s2 =>
      rw [hstep] at hc
      have hs2out : fsGet s2.fs (outPath id) = none := by
        have h := step2U_out env id a.mimetype pW pH sW
        rw [hstep, resSt_ok] at h
        rw [h, houtW]
      have hgt : GoodT [apdfPath id, outPath id] s2 := by
        intro p hp cc hcc
        rcases (by simpa using hp : p = apdfPath id ∨ p = outPath id) with rfl | rfl
        · exact step2U_apdf env id a.mimetype pW pH sW s2 hstep cc hcc
        · rw [hs2out] at hcc; cases hcc
      have hfinal := interp_goodT env (cascadeUProg id pW pH) [apdfPath id, outPath id] s2 hgt
          (by simp [cascadeUProg, Prog.writtenPaths, compositePsPath, apdfPath, outPath])
          (by simp [cascadeUProg, Prog.copySrcs])
      exact hfinal (outPath id) (by simp) c hc
  | error e =>
      rw [hstep] at hc
      have h := step2U_out env id a.mimetype pW pH sW
      rw [hstep, resSt_error] at h
      rw [resSt_error, h, houtW] at hc
      cases hc

lemma mergeA_out_tool (env : Env) (id : String) (t a : UploadFile) (w h : JsNum) :
    ∀ c, fsGet (resSt (interp env (mergeAProg id t a w h) (mkdirJob id St.init))).fs
        (outPath id) = some c → isToolOut c = true := by
  intro c hc
  have hgood := interp_good env (mergeAProg id t a w h) (mergeAProg id t a w h).writtenPaths
      (mkdirJob id St.init) (good_init _ _) (fun p hp => hp)
      (by simp [mergeAProg, Prog.copySrcs])
  exact hgood _ c hc
    (by simpa [mergeAProg, Prog.writtenPaths] using out_notin_badA id a.mimetype)

lemma overlay_out_tool (env : Env) (id : String) (t a : UploadFile) (x y w h pW pH : JsNum) :
    ∀ c, fsGet (resSt (interp env (overlayProg id t a x y w h pW pH)
        (mkdirJob id St.init))).fs (outPath id) = some c → isToolOut c = true := by
  intro c hc
  have hgood := interp_good env (overlayProg id t a x y w h pW pH)
      (overlayProg id t a x y w h pW pH).writtenPaths (mkdirJob id St.init) (good_init _ _)
      (fun p hp => hp) (by simp [overlayProg, Prog.copySrcs])
  exact hgood _ c hc
    (by simp [overlayProg, Prog.writtenPaths, outPath, tPathOf, aPngPath, overlayPsPath])

lemma create_out_tool (env : Env) (id : String) (a : UploadFile) (tpl : Option UploadFile)
    (lname : String) (pW pH : JsNum) :
    ∀ c, fsGet (resSt (interp env (createProg id a tpl lname pW pH)
        (mkdirJob id St.init))).fs (outPath id) = some c → isToolOut c = true := by
  intro c hc
  have hgood := interp_good env (createProg id a tpl lname pW pH)
      (createProg id a tpl lname pW pH).writtenPaths (mkdirJob id St.init) (good_init _ _)
      (fun p hp => hp) (by rcases tpl with _ | t <;> simp [createProg, Prog.copySrcs])
  refine hgood _ c hc ?_
  rcases tpl with _ | t <;>
    simp [createProg, Prog.writtenPaths, outPath, tPathOf, aPngPath, layeredPsPath]

/-- C6: no in-process document manipulation.  Every handler writes both
upload buffers byte-for-byte unchanged to its temp files, and whenever a
handler answers 200 the PDF it returns is the content of a file produced by
an external tool (possibly copied by the last-resort `copyFileSync`, which
itself only duplicates a tool output). -/
theorem claim6_delegation (env : Env) (id : String) (t a : UploadFile) (req : Request)
    (ht : req.template = some t) (ha : req.artwork = some a) :
    (savesUploads (mergeA env id req) (tPathOf id) (aPathOf id a.mimetype) t a ∧
      ((mergeA env id req).resp.status = 200 → respIsToolPdf (mergeA env id req))) ∧
    (savesUploads (mergeR env id req) (tPathOf id) (aPathOf id a.mimetype) t a ∧
      ((mergeR env id req).resp.status = 200 → respIsToolPdf (mergeR env id req))) ∧
    (savesUploads (mergeU env id req) (tPathOf id) (aPathOf id a.mimetype) t a ∧
      ((mergeU env id req).resp.status = 200 → respIsToolPdf (mergeU env id req))) ∧
    (savesUploads (overlayArtworkA env id req) (tPathOf id) (aPngPath id) t a ∧
      ((overlayArtworkA env id req).resp.status = 200 → respIsToolPdf (overlayArtworkA env id req))) ∧
    (savesUploads (overlayArtworkR env id req) (tPathOf id) (aPngPath id) t a ∧
      ((overlayArtworkR env id req).resp.status = 200 → respIsToolPdf (overlayArtworkR env id req))) ∧
    (savesUploads (overlayArtworkU env id req) (tPathOf id) (aPngPath id) t a ∧
      ((overlayArtworkU env id req).resp.status = 200 → respIsToolPdf (overlayArtworkU env id req))) ∧
    (savesUploads (createLayeredA env id req) (tPathOf id) (aPngPath id) t a ∧
      ((createLayeredA env id req).resp.status = 200 → respIsToolPdf (createLayeredA env id req))) ∧
    (savesUploads (createLayeredR env id req) (tPathOf id) (aPngPath id) t a ∧
      ((createLayeredR env id req).resp.status = 200 → respIsToolPdf (createLayeredR env id req))) ∧
    (savesUploads (createLayeredU env id req) (tPathOf id) (aPngPath id) t a ∧
      ((createLayeredU env id req).resp.status = 200 → respIsToolPdf (createLayeredU env id req))) := by
  refine ⟨⟨?_, ?_⟩, ⟨?_, ?_⟩, ⟨?_, ?_⟩, ⟨?_, ?_⟩, ⟨?_, ?_⟩, ⟨?_, ?_⟩, ⟨?_, ?_⟩, ⟨?_, ?_⟩, ⟨?_, ?_⟩⟩
  · simp only [mergeA, ht, ha, savesUploads, mergeAProg]
    exact writes_first_two env id _ _ _ _ _ _
  · simp only [mergeA, ht, ha]
    intro h200
    exact finishJob_toolPdf _ _ _ (mergeA_out_tool env id t a _ _) h200
  · simp only [mergeR, ht, ha, savesUploads, mergeRProg]
    exact writes_first_two env id _ _ _ _ _ _
  · simp only [mergeR, ht, ha]
    intro h200
    exact finishJob_toolPdf _ _ _ (mergeR_out_tool env id t a _ _) h200
  · simp only [mergeU, ht, ha, savesUploads, mergeUProg]
    exact writes_first_two env id _ _ _ _ _ _
  · simp only [mergeU, ht, ha]
    intro h200
    exact finishJob_toolPdf _ _ _ (mergeU_out_tool env id t a _ _) h200
  · simp only [overlayArtworkA, ht, ha, savesUploads, overlayProg]
    exact writes_first_two env id _ _ _ _ _ _
  · simp only [overlayArtworkA, ht, ha]
    intro h200
    exact finishJob_toolPdf _ _ _ (overlay_out_tool env id t a _ _ _ _ _ _) h200
  · simp only [overlayArtworkR, ht, ha, savesUploads, overlayProg]
    exact writes_first_two env id _ _ _ _ _ _
  · simp only [overlayArtworkR, ht, ha]
    intro h200
    exact finishJob_toolPdf _ _ _ (overlay_out_tool env id t a _ _ _ _ _ _) h200
  · simp only [overlayArtworkU, ht, ha, savesUploads, overlayProg]
    exact writes_first_two env id _ _ _ _ _ _
  · simp only [overlayArtworkU, ht, ha]
    intro h200
    exact finishJob_toolPdf _ _ _ (overlay_out_tool env id t a _ _ _ _ _ _) h200
  · simp only [createLayeredA, ht, ha, savesUploads, createProg]
    have h := writes_first_two env id "Failed to create output PDF"
      (aPngPath id) (tPathOf id) (Content.upload a.bytes) (Content.upload t.bytes)
      (.seq (.write (layeredPsPath id)
        (.script (layeredPs (strParam req.artworkLayerName "ARTWORK HERE")
          (numParam req.pageWidth 612) (numParam req.pageHeight 792))))
        (.run (cLayeredGs id)))
    exact ⟨h.2, h.1⟩
  · simp only [createLayeredA, ht, ha]
    intro h200
    exact finishJob_toolPdf _ _ _ (create_out_tool env id a _ _ _ _) h200
  · simp only [createLayeredR, ht, ha, savesUploads, createProg]
    have h := writes_first_two env id "Failed to create output PDF"
      (aPngPath id) (tPathOf id) (Content.upload a.bytes) (Content.upload t.bytes)
      (.seq (.write (layeredPsPath id)
        (.script (layeredPs (strParam req.artworkLayerName "ARTWORK HERE")
          (numParam req.pageWidth 612) (numParam req.pageHeight 792))))
        (.run (cLayeredGs id)))
    exact ⟨h.2, h.1⟩
  · simp only [createLayeredR, ht, ha]
    intro h200
    exact finishJob_toolPdf _ _ _ (create_out_tool env id a _ _ _ _) h200
  · simp only [createLayeredU, ht, ha, savesUploads, createProg]
    have h := writes_first_two env id "Failed to create output PDF"
      (aPngPath id) (tPathOf id) (Content.upload a.bytes) (Content.upload t.bytes)
      (.seq (.write (layeredPsPath id)
        (.script (layeredPs (strParam req.artworkLayerName "ARTWORK HERE")
          (numParam req.pageWidth 612) (numParam req.pageHeight 792))))
        (.run (cLayeredGs id)))
    exact ⟨h.2, h.1⟩
  · simp only [createLayeredU, ht, ha]
    intro h200
    exact finishJob_toolPdf _ _ _ (create_out_tool env id a _ _ _ _) h200

/-- Witness for C6 at a concrete request with every tool succeeding. -/
theorem claim6_delegation_witness :
    savesUploads (mergeA envAll "w6" reqSample) (tPathOf "w6") (aPathOf "w6" "image/png")
        ⟨[0], "application/pdf"⟩ ⟨[1], "image/png"⟩ ∧
    respIsToolPdf (mergeA envAll "w6" reqSample) := by
  have h := claim6_delegation envAll "w6" ⟨[0], "application/pdf"⟩ ⟨[1], "image/png"⟩
      reqSample rfl rfl
  exact ⟨h.1.1, h.1.2 (by decide)⟩

end PrintPilot
